import Mathlib

/-!
Verification development for the FlexiMart ETL pipeline
(`part1-database-etl/etl_pipeline.py`).

The transform layer of the pipeline is shallowly embedded here:

* pandas dataframes become `Table` values: a list of column names plus a
  list of rows, each row an association list from column name to `Cell`;
* a pandas cell is `Cell`: `na` models `NaN`/`None`, `str` a Python string,
  `int` a Python int (quantities and ids become ints inside the pipeline);
* Python floats are modelled as exact decimal rationals `Dec` (an integer
  mantissa over a power of ten — every float literal, price string and
  product of such values in this pipeline is such a rational); `"%.2f"`
  formatting is modelled as exact round-half-to-even at two decimals
  (Python rounds the nearest binary double, which agrees on the values
  exercised here, and non-finite floats are not modelled);
* fallible code paths (`raise`, pandas `KeyError` on a missing column)
  return `Except String`.

All definitions follow the Python source; modelling choices that
approximate library behaviour are noted at the definition they concern.
-/

/-- Model of one pandas cell: missing (`NaN`/`None`), a string, or an int. -/
inductive Cell where
  | na : Cell
  | str : String → Cell
  | int : Int → Cell
deriving DecidableEq, Repr

/-- Model of one dataframe row: an association list from column name to cell.
A name absent from the list reads as `Cell.na`, matching a `NaN` entry. -/
def Row := List (String × Cell)
deriving DecidableEq, Repr

/-- Model of a pandas dataframe: the column list plus the rows.  Column
presence (`col in df.columns`) is tracked by `cols`, as in pandas it is a
table-level property. -/
structure Table where
  cols : List String
  rows : List Row
deriving DecidableEq, Repr

namespace Row

/-- Read a cell of a row; a missing binding reads as `na`. -/
def cell (r : Row) (c : String) : Cell :=
  ((List.find? (fun p => p.1 == c) r).map Prod.snd).getD .na

/-- Write a cell of a row, replacing an existing binding or appending. -/
def set (r : Row) (c : String) (v : Cell) : Row :=
  if (List.find? (fun p => p.1 == c) r).isSome then
    List.map (fun p => if p.1 == c then (c, v) else p) r
  else
    List.append r [(c, v)]

end Row

namespace Table

/-- Model of a column assignment `df[c] = df.apply(f)`: every row gets the
cell computed by `f`, and the column is appended if new. -/
def setCol (t : Table) (c : String) (f : Row → Cell) : Table :=
  { cols := if t.cols.contains c then t.cols else t.cols ++ [c],
    rows := t.rows.map (fun r => r.set c (f r)) }

/-- Model of boolean-mask row filtering `df[mask]`. -/
def filterRows (t : Table) (p : Row → Bool) : Table :=
  { t with rows := t.rows.filter p }

end Table

/-- Statistics record threaded through the transforms
(`{"processed": .., "duplicates_removed": .., "missing_handled": ..}`). -/
structure Stats where
  processed : Nat
  duplicates_removed : Nat
  missing_handled : Nat
deriving DecidableEq, Repr

/-- Numeric value of a list of decimal digit characters. -/
def digitsVal (l : List Char) : Nat :=
  l.foldl (fun a c => a * 10 + (c.toNat - 48)) 0

/-- Model of Python `str.strip()` (ASCII whitespace; kernel-computable
replacement for `String.trim`, whose iterator implementation does not
reduce in the kernel). -/
def pyStrip (s : String) : String :=
  String.mk (((s.data.dropWhile Char.isWhitespace).reverse.dropWhile Char.isWhitespace).reverse)

/-- Split a character list on a separator character, yielding the pieces
as strings (kernel-computable replacement for `String.splitOn` with a
one-character separator). -/
def splitOnSep (sep : Char) : List Char → List String
  | [] => [""]
  | c :: t =>
    let r := splitOnSep sep t
    if c == sep then "" :: r
    else
      match r with
      | h :: t2 => String.mk (c :: h.data) :: t2
      | [] => [String.mk [c]]

/-- Lexicographic comparison of character lists by code point, the order
Python and pandas use for strings (kernel-computable replacement for the
`String` order instance). -/
def charListLt : List Char → List Char → Bool
  | [], [] => false
  | [], _ :: _ => true
  | _ :: _, [] => false
  | a :: as, b :: bs =>
    if a.toNat < b.toNat then true
    else if b.toNat < a.toNat then false
    else charListLt as bs

/-- Exact decimal rational `m / 10 ^ e`.  Every numeric value flowing
through the pipeline (parsed price strings, integer quantities, their
products and sums) lies in this subring of `ℚ`; arithmetic on it needs no
gcd normalization, so concrete runs evaluate inside the kernel. -/
structure Dec where
  m : Int
  e : Nat
deriving DecidableEq, Repr

namespace Dec

/-- Embed an integer. -/
def ofInt (n : Int) : Dec := ⟨n, 0⟩

/-- Exact product. -/
def mul (a b : Dec) : Dec := ⟨a.m * b.m, a.e + b.e⟩

/-- Exact sum (common denominator `10 ^ (a.e + b.e)`). -/
def add (a b : Dec) : Dec :=
  ⟨a.m * (10 : Int) ^ b.e + b.m * (10 : Int) ^ a.e, a.e + b.e⟩

/-- Strict comparison of the represented rationals. -/
def lt (a b : Dec) : Bool :=
  a.m * (10 : Int) ^ b.e < b.m * (10 : Int) ^ a.e

/-- Floor of the represented rational. -/
def floor (a : Dec) : Int := Int.fdiv a.m ((10 : Int) ^ a.e)

/-- Whether the represented rational is negative. -/
def isNeg (a : Dec) : Bool := a.m < 0

end Dec

/-- Model of Python `float(s)`: optional sign, digits with an optional
decimal point, optional exponent, surrounded by optional whitespace (the
builtin strips whitespace itself).  `inf`, `nan` and underscore separators
are not modelled; no input in this development uses them. -/
def parseFloat (s : String) : Option Dec :=
  let cs := (pyStrip s).data
  let (sgn, cs1) :=
    match cs with
    | '+' :: t => ((1 : Int), t)
    | '-' :: t => ((-1 : Int), t)
    | _ => ((1 : Int), cs)
  let ip := cs1.takeWhile Char.isDigit
  let cs2 := cs1.dropWhile Char.isDigit
  let (fp, cs3) :=
    match cs2 with
    | '.' :: t => (t.takeWhile Char.isDigit, t.dropWhile Char.isDigit)
    | _ => (([] : List Char), cs2)
  if ip.isEmpty && fp.isEmpty then none
  else
    let mant : Dec := ⟨sgn * (digitsVal (ip ++ fp) : Int), fp.length⟩
    match cs3 with
    | [] => some mant
    | e :: t =>
      if e == 'e' || e == 'E' then
        let (epos, t1) :=
          match t with
          | '+' :: t2 => (true, t2)
          | '-' :: t2 => (false, t2)
          | _ => (true, t)
        let ed := t1.takeWhile Char.isDigit
        let rest := t1.dropWhile Char.isDigit
        if ed.isEmpty || !rest.isEmpty then none
        else if epos then some ⟨mant.m * (10 : Int) ^ digitsVal ed, mant.e⟩
        else some ⟨mant.m, mant.e + digitsVal ed⟩
      else none

/-- Nearest integer to `100 * q`, ties to even: the rounding performed by
Python `"%.2f"` formatting (on the exact decimal model of the float). -/
def round2 (q : Dec) : Int :=
  let x := q.mul (Dec.ofInt 100)
  let n := x.floor
  let f : Dec := ⟨x.m - n * (10 : Int) ^ x.e, x.e⟩
  let half : Dec := ⟨5, 1⟩
  if Dec.lt half f then n + 1
  else if Dec.lt f half then n
  else if n % 2 = 0 then n else n + 1

/-- Zero-pad a natural number below 100 to two digits. -/
def pad2 (n : Nat) : String :=
  if n < 10 then "0" ++ toString n else toString n

/-- Model of Python `f"{q:.2f}"`: sign, integer part, dot, two digits
(note Python prints `-0.00` for tiny negative values). -/
def fmt2 (q : Dec) : String :=
  let n := round2 q
  let sign := if q.isNeg then "-" else ""
  let m := n.natAbs
  sign ++ toString (m / 100) ++ "." ++ pad2 (m % 100)

/-- Model of `str(x)` / `.astype(str)` on a cell: `NaN` prints as `"nan"`. -/
def cellStr (c : Cell) : String :=
  match c with
  | .na => "nan"
  | .str s => s
  | .int n => toString n

/-- Model of `.fillna("").astype(str).str.strip()` applied to one cell. -/
def cleanStrCell (c : Cell) : Cell :=
  match c with
  | .na => .str ""
  | .str s => .str (pyStrip s)
  | .int n => .str (toString n)

/-- Model of Python `float(cell)` where `NaN` propagates (`float(nan)` is
`nan`, modelled as `none`, which every caller renders as `"nan"`). -/
def cellFloat (c : Cell) : Option Dec :=
  match c with
  | .na => none
  | .str s => parseFloat s
  | .int n => some (Dec.ofInt n)

/-- Source `safe_to_int` (etl_pipeline.py:216): `int(float(str(s).strip()))`,
`none` on null, blank or parse failure; truncation is toward zero.  The
Python `default` argument is supplied by callers via `Option.getD`. -/
def safe_to_int (c : Cell) : Option Int :=
  match c with
  | .na => none
  | .int n => some n
  | .str s =>
    let t := pyStrip s
    if t == "" then none
    else
      match parseFloat t with
      | some q => some (Int.tdiv q.m ((10 : Int) ^ q.e))
      | none => none

/-- Source `safe_to_decimal` (etl_pipeline.py:205): two-decimal string of
`float(str(s).strip())`, `none` on null or parse failure. -/
def safe_to_decimal (c : Cell) : Option String :=
  match c with
  | .na => none
  | .int n => some (fmt2 (Dec.ofInt n))
  | .str s => (parseFloat (pyStrip s)).map fmt2

/-- Source `normalize_phone_to_india` (etl_pipeline.py:151).  Python strips
non-digits with `re.sub(r"\D", "", ...)`; digits are modelled as ASCII
digits. -/
def normalize_phone_to_india (c : Cell) : String :=
  match c with
  | .na => ""
  | _ =>
    let ds := String.mk ((cellStr c).data.filter Char.isDigit)
    if ds.length == 10 then "+91-" ++ ds
    else if ds.length == 12 && (match ds.data with | '9' :: '1' :: _ => true | _ => false) then
      "+91-" ++ String.mk (ds.data.drop (ds.data.length - 10))
    else if ds.length > 10 then
      "+91-" ++ String.mk (ds.data.drop (ds.data.length - 10))
    else ""

/-- Title-case pass of Python `str.title` applied after lowercasing: the
first letter of each maximal alphabetic run is uppercased. -/
def pyTitle (s : String) : String :=
  String.mk
    ((s.data.foldl
        (fun (acc : List Char × Bool) ch =>
          if ch.isAlpha then
            (acc.1 ++ [if acc.2 then ch else ch.toUpper], true)
          else
            (acc.1 ++ [ch], false))
        ([], false)).1)

/-- Source `to_title_case` (etl_pipeline.py:176): `str(s).strip().lower().title()`,
empty string on null. -/
def to_title_case (c : Cell) : String :=
  match c with
  | .na => ""
  | _ => pyTitle (String.mk ((pyStrip (cellStr c)).data.map Char.toLower))

/-- Gregorian leap-year test, as validated by `datetime.strptime`. -/
def isLeap (y : Nat) : Bool :=
  y % 4 == 0 && (y % 100 != 0 || y % 400 == 0)

/-- Days in a month, as validated by `datetime.strptime`. -/
def daysInMonth (y m : Nat) : Nat :=
  if m == 2 then (if isLeap y then 29 else 28)
  else if m == 4 || m == 6 || m == 9 || m == 11 then 30
  else 31

/-- Parse a non-empty all-digit string. -/
def parseNatDigits (s : String) : Option Nat :=
  if s.length > 0 && s.data.all Char.isDigit then some (digitsVal s.data) else none

/-- Model of one `datetime.strptime(s, fmt)` attempt for the pipeline's
formats: `ord = 0` is year-month-day, `1` day-month-year, `2`
month-day-year, split on `sep`.  `strptime` accepts 1-2 digit day and
month and a 1-4 digit year, and validates the calendar date. -/
def tryFmt (sep : Char) (ord : Nat) (s : String) : Option (Nat × Nat × Nat) :=
  match splitOnSep sep s.data with
  | [a, b, c] =>
    let ymd := if ord == 0 then (a, b, c) else if ord == 1 then (c, b, a) else (c, a, b)
    match parseNatDigits ymd.1, parseNatDigits ymd.2.1, parseNatDigits ymd.2.2 with
    | some y, some m, some d =>
      if ymd.1.length ≤ 4 && ymd.2.1.length ≤ 2 && ymd.2.2.length ≤ 2
          && 1 ≤ y && 1 ≤ m && m ≤ 12 && 1 ≤ d && d ≤ daysInMonth y m then
        some (y, m, d)
      else none
    | _, _, _ => none
  | _ => none

/-- Render a parsed date as `strftime("%Y-%m-%d")` does on Linux (years
below 1000 print unpadded). -/
def fmtISO (y m d : Nat) : String :=
  toString y ++ "-" ++ pad2 m ++ "-" ++ pad2 d

/-- Source `parse_date_to_iso` (etl_pipeline.py:183): try the five explicit
formats in priority order.  The final library fallback
(`pd.to_datetime(s, errors="raise", dayfirst=False)`) is an external
pandas call and is modelled as failing to parse; no claim in this
development depends on a string only that fallback accepts. -/
def parse_date_to_iso (c : Cell) : String :=
  match c with
  | .na => ""
  | _ =>
    let s := pyStrip (cellStr c)
    if s == "" then ""
    else
      let fmts : List (Char × Nat) := [('-', 0), ('-', 1), ('/', 1), ('-', 2), ('/', 2)]
      match fmts.findSome? (fun p => tryFmt p.1 p.2 s) with
      | some ymd => fmtISO ymd.1 ymd.2.1 ymd.2.2
      | none => ""

/-- Key of a row over a duplicate-detection column subset; pandas treats
`NaN` entries as equal to each other here, as does `Cell` equality. -/
def dupKey (subset : List String) (r : Row) : List Cell :=
  subset.map (fun c => r.cell c)

/-- Source `drop_duplicates` (etl_pipeline.py:226): keep the first row of
each duplicate group, and report how many rows were removed. -/
def drop_duplicates (rows : List Row) (subset : List String) : List Row × Nat :=
  let kept :=
    rows.foldl
      (fun (acc : List Row × List (List Cell)) r =>
        if acc.2.contains (dupKey subset r) then acc
        else (acc.1 ++ [r], acc.2 ++ [dupKey subset r]))
      ([], [])
  (kept.1, rows.length - kept.1.length)

/-- First non-null cell of a list: the semantics of pandas
`groupby(...).agg("first")` on one group, which skips `NaN` entries. -/
def firstNonNA (l : List Cell) : Cell :=
  (l.find? (fun c => c != .na)).getD .na

/-- Insert into a sorted list of strings (ascending code-point order, the
order pandas sorts group keys in). -/
def insertStr (x : String) : List String → List String
  | [] => [x]
  | y :: ys => if charListLt y.data x.data then y :: insertStr x ys else x :: y :: ys

/-- Insertion sort on strings. -/
def sortStrs : List String → List String
  | [] => []
  | x :: xs => insertStr x (sortStrs xs)

/-- Unique elements of a list, first occurrence order. -/
def dedupStrs (l : List String) : List String :=
  l.foldl (fun acc s => if acc.contains s then acc else acc ++ [s]) []

/-- Default order status (`DEFAULT_ORDER_STATUS`). -/
def DEFAULT_ORDER_STATUS : String := "Pending"

/-- Column renaming applied to the sales table: the inverse of
`SALES_COLUMNS` maps `transaction_id` to `order_id` and `transaction_date`
to `order_date`; every other name is kept. -/
def renameSalesKey (k : String) : String :=
  if k == "transaction_id" then "order_id"
  else if k == "transaction_date" then "order_date"
  else k

/-- Model of `df.rename(columns={v: k for k, v in SALES_COLUMNS.items()})`. -/
def renameSales (t : Table) : Table :=
  { cols := t.cols.map renameSalesKey,
    rows := t.rows.map (fun r => r.map (fun p => (renameSalesKey p.1, p.2))) }

/-- Schema-detection error message (etl_pipeline.py:345); in Python the
found column names are printed by `list(df.columns)`, here rendered
without the quote characters. -/
def schemaErrMsg (cols : List String) : String :=
  "Sales file must contain either (customer_email & product_name) or (customer_id & product_id). Found columns: ["
    ++ String.intercalate ", " cols ++ "]. Update SALES_COLUMNS or CSV headers."

/-- Message standing for the pandas `KeyError` raised by
`drop_duplicates(subset=...)` when a subset column is absent. -/
def dedupKeyErr : String := "KeyError: drop_duplicates subset columns missing"

/-- Message standing for the pandas `KeyError` raised by reading
`df["unit_price"]` (etl_pipeline.py:511) when the column is absent. -/
def unitPriceKeyErr : String := "KeyError: unit_price"

/-- Source `is_series_numeric` (etl_pipeline.py:366), over the list of
cells of the column: `False` when no non-null values exist, else whether
every non-null value parses via `safe_to_int`. -/
def is_series_numeric (cells : List Cell) : Bool :=
  let nonNull := cells.filter (fun c => c != .na)
  if nonNull.isEmpty then false
  else nonNull.all (fun c => (safe_to_int c).isSome)

/-- Whether the customers table can translate coded customer ids
(`{"customer_id", "email"}.issubset(customers_df.columns)`). -/
def custMapAvail (c : Table) : Bool :=
  c.cols.contains "customer_id" && c.cols.contains "email"

/-- Whether the products table can translate coded product ids
(`{"product_id", "product_name"}.issubset(products_df.columns)`). -/
def prodMapAvail (p : Table) : Bool :=
  p.cols.contains "product_id" && p.cols.contains "product_name"

/-- Dictionary lookup for a pandas `set_index(k)[v].to_dict()` mapping:
for duplicate keys the last row wins, as in a Python dict built in order. -/
def lastLookup (pairs : List (Cell × Cell)) (k : Cell) : Option Cell :=
  (pairs.reverse.find? (fun pr => pr.1 == k)).map (fun pr => pr.2)

/-- Model of the code-to-reference mapping step (etl_pipeline.py:377-384):
add `customer_email` (via `customer_id.astype(str)` looked up in the
customers table) and `product_name` (likewise in the products table) when
the respective lookup columns exist. -/
def mapCodes (df : Table) (c p : Table) : Table :=
  let df1 :=
    if custMapAvail c then
      df.setCol "customer_email" (fun r =>
        (lastLookup (c.rows.map (fun cr => (cr.cell "customer_id", cr.cell "email")))
            (.str (cellStr (r.cell "customer_id")))).getD .na)
    else df
  if prodMapAvail p then
    df1.setCol "product_name" (fun r =>
      (lastLookup (p.rows.map (fun pr => (pr.cell "product_id", pr.cell "product_name")))
          (.str (cellStr (r.cell "product_id")))).getD .na)
  else df1

/-- Price dictionary `products_df.set_index("product_name")["price"].to_dict()`
when both columns exist. -/
def prodPriceMapOpt (p : Table) : Option (List (Cell × Cell)) :=
  if p.cols.contains "product_name" && p.cols.contains "price" then
    some (p.rows.map (fun r => (r.cell "product_name", r.cell "price")))
  else none

/-- Python truthiness filter used in the translation loop: `None`/`NaN`,
the empty string, and the int `0` are falsy and reject the row. -/
def truthyCell (c : Cell) : Option Cell :=
  match c with
  | .na => none
  | .str s => if s == "" then none else some c
  | .int n => if n == 0 then none else some c

/-- Model of the `new_rows` construction (etl_pipeline.py:392-410): keep
rows with truthy customer and product references and positive integer
quantity; take the explicit `unit_price` if it parses, else look the
product up in the price dictionary. -/
def translateCoded (df : Table) (p : Table) : List Row :=
  let priceMap := prodPriceMapOpt p
  let hasStatus := df.cols.contains "status"
  df.rows.filterMap (fun r =>
    match truthyCell (r.cell "customer_email"), truthyCell (r.cell "product_name"),
        safe_to_int (r.cell "quantity") with
    | some ce, some pn, some q =>
      if q ≤ 0 then none
      else
        let unit : Cell :=
          match safe_to_decimal (r.cell "unit_price") with
          | some u => .str u
          | none =>
            match priceMap with
            | some m => (lastLookup m pn).getD .na
            | none => .na
        some [("order_id", r.cell "order_id"), ("order_date", r.cell "order_date"),
              ("customer_email", ce), ("product_name", pn), ("quantity", .int q),
              ("unit_price", unit),
              ("status", if hasStatus then r.cell "status" else .str "")]
    | _, _, _ => none)

/-- Model of the coded-identifier branch (etl_pipeline.py:386-416): map
codes, rebuild the dataframe from the translated rows (an empty row list
gives a dataframe with no columns, as `pd.DataFrame([])` does), and add
`processed - surviving` to `missing_handled`. -/
def mappedBranch (df : Table) (c p : Table) (stats : Stats) : Table × Stats :=
  let newRows := translateCoded (mapCodes df c p) p
  let cols : List String :=
    if newRows.isEmpty then []
    else ["order_id", "order_date", "customer_email", "product_name", "quantity",
          "unit_price", "status"]
  (⟨cols, newRows⟩,
   { stats with missing_handled := stats.missing_handled + (stats.processed - newRows.length) })

/-- Price lookup table for the left merges: the `[key, price]` projection
of the products table when both columns exist, else no lookup (the code
then merges against an empty frame, leaving `product_price` null). -/
def priceLookup (p : Table) (keyCol : String) : Option (List (Cell × Cell)) :=
  if p.cols.contains keyCol && p.cols.contains "price" then
    some (p.rows.map (fun r => (r.cell keyCol, r.cell "price")))
  else none

/-- Model of `df.merge(products_lookup, on=on, how="left")`: each left row
is repeated once per matching lookup row (pandas duplicates rows on
duplicate keys) with the match's price as `product_price`, or kept once
with a null `product_price` when nothing matches.  Dtype limitation:
pandas raises `ValueError` when one key column is int64 and the other is
object; this embedding carries no column dtypes, so such a merge instead
finds no matches here — error statements built on this model are
therefore sufficiency-only (see `sales_error_conditions`). -/
def mergePrice (t : Table) (lookup : Option (List (Cell × Cell))) (onCol : String) : Table :=
  { cols := t.cols ++ ["product_price"],
    rows := t.rows.flatMap (fun r =>
      let k := r.cell onCol
      let ms := (lookup.getD []).filter (fun pr => pr.1 == k)
      if ms.isEmpty then [r.set "product_price" .na]
      else ms.map (fun pr => r.set "product_price" pr.2)) }

/-- Source `compute_unit_price` / `compute_unit_price_id`: keep a parseable
supplied price reformatted to two decimals, else fall back to the merged
product price. -/
def computeUnitPrice (u pp : Cell) : Cell :=
  match u with
  | .na => pp
  | .str s =>
    match parseFloat s with
    | some q => .str (fmt2 q)
    | none => pp
  | .int n => .str (fmt2 (Dec.ofInt n))

/-- Model of the numeric-id branch (etl_pipeline.py:421-457): coerce ids to
ints and drop nulls, parse and filter quantity, left-merge product prices
on `product_id`, resolve `unit_price`, and drop rows without one. -/
def idNumericSteps (df : Table) (p : Table) (stats : Stats) : Table × Stats :=
  let df := df.setCol "customer_id" (fun r =>
    match safe_to_int (r.cell "customer_id") with | some n => .int n | none => .na)
  let df := df.setCol "product_id" (fun r =>
    match safe_to_int (r.cell "product_id") with | some n => .int n | none => .na)
  let b1 := df.rows.length
  let df := df.filterRows (fun r =>
    r.cell "customer_id" != .na && r.cell "product_id" != .na)
  let stats := { stats with missing_handled := stats.missing_handled + (b1 - df.rows.length) }
  let df := df.setCol "quantity" (fun r =>
    match safe_to_int (r.cell "quantity") with | some n => .int n | none => .na)
  let b2 := df.rows.length
  let df := df.filterRows (fun r =>
    match r.cell "quantity" with | .int n => n > 0 | _ => false)
  let stats := { stats with missing_handled := stats.missing_handled + (b2 - df.rows.length) }
  let df := mergePrice df (priceLookup p "product_id") "product_id"
  let df := df.setCol "unit_price" (fun r =>
    match safe_to_decimal (r.cell "unit_price") with | some s => .str s | none => .na)
  let df := df.setCol "unit_price" (fun r =>
    computeUnitPrice (r.cell "unit_price") (r.cell "product_price"))
  let b3 := df.rows.length
  let df := df.filterRows (fun r => r.cell "unit_price" != .na)
  let stats := { stats with missing_handled := stats.missing_handled + (b3 - df.rows.length) }
  (df, stats)

/-- Model of the name-based branch (etl_pipeline.py:460-503): clean and
require `customer_email` and `product_name`, parse and filter quantity,
left-merge product prices on `product_name`, resolve `unit_price`, and
drop rows without one. -/
def namePathSteps (df : Table) (p : Table) (stats : Stats) : Table × Stats :=
  let df := df.setCol "customer_email" (fun r => cleanStrCell (r.cell "customer_email"))
  let b1 := df.rows.length
  let df := df.filterRows (fun r => r.cell "customer_email" != .str "")
  let stats := { stats with missing_handled := stats.missing_handled + (b1 - df.rows.length) }
  let df := df.setCol "product_name" (fun r => cleanStrCell (r.cell "product_name"))
  let b2 := df.rows.length
  let df := df.filterRows (fun r => r.cell "product_name" != .str "")
  let stats := { stats with missing_handled := stats.missing_handled + (b2 - df.rows.length) }
  let df := df.setCol "quantity" (fun r =>
    match safe_to_int (r.cell "quantity") with | some n => .int n | none => .na)
  let b3 := df.rows.length
  let df := df.filterRows (fun r =>
    match r.cell "quantity" with | .int n => n > 0 | _ => false)
  let stats := { stats with missing_handled := stats.missing_handled + (b3 - df.rows.length) }
  let df := mergePrice df (priceLookup p "product_name") "product_name"
  let df := df.setCol "unit_price" (fun r =>
    match safe_to_decimal (r.cell "unit_price") with | some s => .str s | none => .na)
  let df := df.setCol "unit_price" (fun r =>
    computeUnitPrice (r.cell "unit_price") (r.cell "product_price"))
  let b4 := df.rows.length
  let df := df.filterRows (fun r => r.cell "unit_price" != .na)
  let stats := { stats with missing_handled := stats.missing_handled + (b4 - df.rows.length) }
  (df, stats)

/-- Source `normalize_price` (etl_pipeline.py:506): `f"{float(p):.2f}"`,
`none` on exception.  `float` of a null cell is `nan` (no exception) and
formats as the string `"nan"`, so a null survives as `"nan"`.  This is the
float64-column behavior; on an object-dtype column the null is a Python
`None`, `float(None)` raises, and the row is dropped and counted at
etl_pipeline.py:512-514 — a dtype distinction this model does not draw. -/
def normalize_price (c : Cell) : Cell :=
  match c with
  | .na => .str "nan"
  | .int n => .str (fmt2 (Dec.ofInt n))
  | .str s =>
    match parseFloat s with
    | some q => .str (fmt2 q)
    | none => .na

/-- Subtotal of one row (etl_pipeline.py:517):
`f"{float(q) * float(up):.2f}"`; a `nan` operand yields `"nan"`. -/
def mulSubtotal (q up : Cell) : String :=
  match cellFloat q, cellFloat up with
  | some a, some b => fmt2 (a.mul b)
  | _, _ => "nan"

/-- Group total (etl_pipeline.py:552/563):
`f"{sum(float(v) for v in x):.2f}"`; a `nan` addend yields `"nan"`, and an
empty group sums to `0.00`. -/
def sumSubtotal (l : List Cell) : String :=
  match l.mapM cellFloat with
  | some qs => fmt2 (qs.foldl Dec.add (Dec.ofInt 0))
  | none => "nan"

/-- Uniform price finalization and subtotal computation
(etl_pipeline.py:505-517), after the `unit_price` column access has been
checked by the caller. -/
def priceFinalize (df : Table) (stats : Stats) : Table × Stats :=
  let df := df.setCol "unit_price" (fun r => normalize_price (r.cell "unit_price"))
  let b := df.rows.length
  let df := df.filterRows (fun r => r.cell "unit_price" != .na)
  let stats := { stats with missing_handled := stats.missing_handled + (b - df.rows.length) }
  let df := df.setCol "subtotal" (fun r =>
    .str (mulSubtotal (r.cell "quantity") (r.cell "unit_price")))
  (df, stats)

/-- Synthetic order key (etl_pipeline.py:523/525/532/537):
`customer reference + "|" + order_date`; on the id path the reference goes
through `str(...)` first, and a null operand propagates as `NaN` (string
concatenation with `NaN` yields `NaN`).  Dtype limitation: for a
non-string non-null reference on the name path (e.g. an int mapped
customer email) pandas `+` raises `TypeError`; this model returns `NaN`
instead, another reason error statements are sufficiency-only. -/
def synthKey (r : Row) (byId : Bool) : Cell :=
  if byId then
    match r.cell "order_date" with
    | .str d => .str (cellStr (r.cell "customer_id") ++ "|" ++ d)
    | _ => .na
  else
    match r.cell "customer_email", r.cell "order_date" with
    | .str e, .str d => .str (e ++ "|" ++ d)
    | _, _ => .na

/-- Per-row order-key rule: when the `order_id` column exists and the
row's cleaned `order_id` is non-blank it becomes the key, otherwise the
key is synthesized.  `assignKey` realizes exactly this rule on every row
(theorem `assignKey_keys`): its whole-column branch (column absent or all
null) synthesizes every key, which per row coincides with this rule. -/
def pyOrderKey (hasOrderId : Bool) (r : Row) (byId : Bool) : Cell :=
  if hasOrderId then
    match cleanStrCell (r.cell "order_id") with
    | .str t => if t == "" then synthKey r byId else .str t
    | _ => synthKey r byId
  else synthKey r byId

/-- Order-key assignment (etl_pipeline.py:521-539): when the `order_id`
column is absent or entirely null every key is synthesized; otherwise
`order_id` is cleaned in place and each row keeps a non-blank `order_id`
or falls back to the synthetic key. -/
def assignKey (df : Table) (byId : Bool) : Table :=
  if !df.cols.contains "order_id" || df.rows.all (fun r => r.cell "order_id" == .na) then
    df.setCol "order_key" (fun r => synthKey r byId)
  else
    let df := df.setCol "order_id" (fun r => cleanStrCell (r.cell "order_id"))
    df.setCol "order_key" (fun r =>
      match r.cell "order_id" with
      | .str t => if t == "" then synthKey r byId else .str t
      | _ => synthKey r byId)

/-- Ensure the `status` column exists (etl_pipeline.py:542-543). -/
def ensureStatus (df : Table) : Table :=
  if df.cols.contains "status" then df
  else df.setCol "status" (fun _ => .str "")

/-- String value of a row's `order_key`, when it is a string (the pipeline
only produces string keys; pandas would silently drop a `NaN` group key). -/
def orderKeyStr? (r : Row) : Option String :=
  match r.cell "order_key" with
  | .str s => some s
  | _ => none

/-- One aggregated order row for group key `k`: the group is the rows whose
`order_key` cell is the string `k` (for a string key this is the same
row set as pandas' group of `k`), aggregated per etl_pipeline.py:548-554:
`"first"` takes the first non-null value, and the subtotal lambda sums
the parsed group subtotals and formats once. -/
def aggRowFor (rows : List Row) (byId : Bool) (k : String) : Row :=
  let refCol := if byId then "customer_id" else "customer_email"
  let g := rows.filter (fun r => r.cell "order_key" == Cell.str k)
  [("order_key", .str k),
   (refCol, firstNonNA (g.map (fun r => r.cell refCol))),
   ("order_date", firstNonNA (g.map (fun r => r.cell "order_date"))),
   ("subtotal", .str (sumSubtotal (g.map (fun r => r.cell "subtotal")))),
   ("status", firstNonNA (g.map (fun r => r.cell "status")))]

/-- Orders construction (etl_pipeline.py:546-567):
`groupby("order_key").agg(...)` — group keys in ascending sorted order,
one aggregated row per key. -/
def buildOrders (df : Table) (byId : Bool) : Table :=
  let keys := sortStrs (dedupStrs (df.rows.filterMap orderKeyStr?))
  let refCol := if byId then "customer_id" else "customer_email"
  { cols := ["order_key", refCol, "order_date", "subtotal", "status"],
    rows := keys.map (aggRowFor df.rows byId) }

/-- Status defaulting on the orders table (etl_pipeline.py:570-574): clean
the aggregated status, count the blanks, replace them by `"Pending"` and
add the count to `missing_handled`. -/
def statusDefault (orders : Table) (stats : Stats) : Table × Stats :=
  let orders := orders.setCol "status" (fun r => cleanStrCell (r.cell "status"))
  let cnt := (orders.rows.filter (fun r => r.cell "status" == .str "")).length
  if cnt > 0 then
    (orders.setCol "status" (fun r =>
       if r.cell "status" == .str "" then .str DEFAULT_ORDER_STATUS else r.cell "status"),
     { stats with missing_handled := stats.missing_handled + cnt })
  else (orders, stats)

/-- One projected order-item row (the column selection of
etl_pipeline.py:577-584 applied to one line-item row). -/
def itemSel (byId : Bool) (r : Row) : Row :=
  let refCol := if byId then "product_id" else "product_name"
  [("order_key", r.cell "order_key"),
   (refCol, r.cell refCol),
   ("quantity", r.cell "quantity"),
   ("unit_price", r.cell "unit_price"),
   ("subtotal", r.cell "subtotal")]

/-- Order-items projection (etl_pipeline.py:577-584). -/
def buildItems (df : Table) (byId : Bool) : Table :=
  let refCol := if byId then "product_id" else "product_name"
  { cols := ["order_key", refCol, "quantity", "unit_price", "subtotal"],
    rows := df.rows.map (itemSel byId) }

/-- Final gate before price finalization: reading `df["unit_price"]`
(etl_pipeline.py:511) raises a `KeyError` when the column is gone, which
happens exactly when the coded-translation path produced zero rows. -/
def finalizePrep (df : Table) (byId : Bool) (stats : Stats) :
    Except String (Table × Bool × Stats) :=
  if !df.cols.contains "unit_price" then .error unitPriceKeyErr
  else
    let r := priceFinalize df stats
    .ok (r.1, byId, r.2)

/-- Duplicate-detection column subset for the sales table
(etl_pipeline.py:349-352). -/
def salesSubset (byId : Bool) : List String :=
  if byId then ["customer_id", "product_id", "order_date", "quantity", "unit_price"]
  else ["customer_email", "product_name", "order_date", "quantity", "unit_price"]

/-- Detection of the name-based schema (`has_name_cols`,
etl_pipeline.py:342) on the renamed sales table. -/
def hasNamePair (s : Table) : Bool :=
  (renameSales s).cols.contains "customer_email"
    && (renameSales s).cols.contains "product_name"

/-- Detection of the id-based schema (`has_id_cols`, etl_pipeline.py:343);
when both pairs are present the id-based path wins (`by_id = has_id_cols`). -/
def hasIdPair (s : Table) : Bool :=
  (renameSales s).cols.contains "customer_id"
    && (renameSales s).cols.contains "product_id"

/-- Sales table and statistics after rename, deduplication and date
normalization (etl_pipeline.py:337-362), assuming the dedup subset columns
are present (the caller checks this first). -/
def salesAfterDate (s : Table) : Table × Stats :=
  let stats : Stats := ⟨s.rows.length, 0, 0⟩
  let df := renameSales s
  let dd := drop_duplicates df.rows (salesSubset (hasIdPair s))
  let df : Table := { df with rows := dd.1 }
  let stats := { stats with duplicates_removed := stats.duplicates_removed + dd.2 }
  let df := df.setCol "order_date" (fun r => .str (parse_date_to_iso (r.cell "order_date")))
  let b := df.rows.length
  let df := df.filterRows (fun r =>
    match r.cell "order_date" with
    | .str s2 => pyStrip s2 != ""
    | _ => false)
  let stats := { stats with missing_handled := stats.missing_handled + (b - df.rows.length) }
  (df, stats)

/-- Whether the id-based path classifies both id columns as numeric
(etl_pipeline.py:371-372, on the deduplicated date-filtered table). -/
def bothIdsNumeric (s : Table) : Bool :=
  let df := (salesAfterDate s).1
  is_series_numeric (df.rows.map (fun r => r.cell "customer_id"))
    && is_series_numeric (df.rows.map (fun r => r.cell "product_id"))

/-- Whether a run takes the coded-translation branch and that branch
produces zero surviving rows — the situation in which the rebuilt
dataframe has no `unit_price` column and etl_pipeline.py:511 raises. -/
def takesCodedEmptyPath (s c p : Table) : Bool :=
  hasIdPair s && !bothIdsNumeric s && (custMapAvail c || prodMapAvail p)
    && (translateCoded (mapCodes (salesAfterDate s).1 c p) p).isEmpty

/-- Sales transform up to the computed line-item table
(etl_pipeline.py:337-517): rename, schema detection, deduplication, date
normalization, then the id-numeric / coded-translation / name-based
branch, and price finalization.  Returns the surviving line-item
dataframe, the (possibly updated) `by_id` flag, and the statistics. -/
def salesPrep (s c p : Table) : Except String (Table × Bool × Stats) :=
  let df0 := renameSales s
  if !(hasNamePair s || hasIdPair s) then .error (schemaErrMsg df0.cols)
  else
    let byId := hasIdPair s
    if !((salesSubset byId).all (fun x => df0.cols.contains x)) then .error dedupKeyErr
    else
      let ad := salesAfterDate s
      let df := ad.1
      let stats := ad.2
      if byId then
        if !bothIdsNumeric s then
          if custMapAvail c || prodMapAvail p then
            let mb := mappedBranch df c p stats
            finalizePrep mb.1 false mb.2
          else
            let st := idNumericSteps df p stats
            finalizePrep st.1 true st.2
        else
          let st := idNumericSteps df p stats
          finalizePrep st.1 true st.2
      else
        let st := namePathSteps df p stats
        finalizePrep st.1 false st.2

/-- Source `transform_sales` (etl_pipeline.py:328-586): the full sales
reconciliation, returning the orders table, the order-items table and
the statistics, or the raised error. -/
def transform_sales (s c p : Table) : Except String (Table × Table × Stats) :=
  match salesPrep s c p with
  | .error e => .error e
  | .ok (df, byId, stats) =>
    let df := assignKey df byId
    let df := ensureStatus df
    let orders := buildOrders df byId
    let os := statusDefault orders stats
    let items := buildItems df byId
    .ok (os.1, items, os.2)

/-- Row-keeping test of `~df[col].isna() & (df[col].str.strip() != "")`:
null cells fail the first conjunct; for a non-string cell the `.str`
accessor yields `NaN`, and `NaN != ""` is elementwise `True`. -/
def keepNonBlank (c : Cell) : Bool :=
  match c with
  | .na => false
  | .str s => pyStrip s != ""
  | .int _ => true

/-- One pass of the required-field loop of `transform_customers`
(etl_pipeline.py:283-287) for a single column. -/
def reqFilter (df : Table) (stats : Stats) (col : String) : Table × Stats :=
  let b := df.rows.length
  let df := df.filterRows (fun r => keepNonBlank (r.cell col))
  (df, { stats with missing_handled := stats.missing_handled + (b - df.rows.length) })

/-- Source `transform_customers` (etl_pipeline.py:253-294).  The column
rename is the identity mapping for customers.  `today` stands for
`datetime.today().strftime("%Y-%m-%d")`, made an explicit argument of the
otherwise clock-dependent default for blank registration dates. -/
def transform_customers (df : Table) (today : String) : Except String (Table × Stats) :=
  let stats : Stats := ⟨df.rows.length, 0, 0⟩
  if !df.cols.contains "email" then .error dedupKeyErr
  else
    let dd := drop_duplicates df.rows ["email"]
    let df : Table := { df with rows := dd.1 }
    let stats := { stats with duplicates_removed := stats.duplicates_removed + dd.2 }
    let b1 := df.rows.length
    let df := df.filterRows (fun r => keepNonBlank (r.cell "email"))
    let stats := { stats with missing_handled := stats.missing_handled + (b1 - df.rows.length) }
    if !df.cols.contains "phone" then .error "KeyError: phone"
    else
      let df := df.setCol "phone" (fun r => .str (normalize_phone_to_india (r.cell "phone")))
      let stats := { stats with missing_handled :=
        stats.missing_handled + (df.rows.filter (fun r => r.cell "phone" == .str "")).length }
      if !df.cols.contains "registration_date" then .error "KeyError: registration_date"
      else
        let df := df.setCol "registration_date" (fun r =>
          .str (parse_date_to_iso (r.cell "registration_date")))
        let emptyDates := (df.rows.filter (fun r => r.cell "registration_date" == .str "")).length
        let df :=
          if emptyDates > 0 then
            df.setCol "registration_date" (fun r =>
              if r.cell "registration_date" == .str "" then .str today
              else r.cell "registration_date")
          else df
        let stats :=
          if emptyDates > 0 then
            { stats with missing_handled := stats.missing_handled + emptyDates }
          else stats
        if !(["first_name", "last_name", "email"].all (fun x => df.cols.contains x)) then
          .error "KeyError: required column"
        else
          let fs := reqFilter df stats "first_name"
          let fs := reqFilter fs.1 fs.2 "last_name"
          let fs := reqFilter fs.1 fs.2 "email"
          let df := fs.1
          let stats := fs.2
          let df := ["first_name", "last_name", "email", "city", "phone"].foldl
            (fun (t : Table) col =>
              if t.cols.contains col then t.setCol col (fun r => cleanStrCell (r.cell col))
              else t)
            df
          .ok (df, stats)

/-- Source `transform_products` (etl_pipeline.py:297-325).  The column
rename is the identity mapping for products.  The null-stock count at
line 318 is taken after the default has already been applied, so it is
always zero, as in the source. -/
def transform_products (df : Table) : Except String (Table × Stats) :=
  let stats : Stats := ⟨df.rows.length, 0, 0⟩
  if !(df.cols.contains "product_name" && df.cols.contains "category") then
    .error dedupKeyErr
  else
    let dd := drop_duplicates df.rows ["product_name", "category"]
    let df : Table := { df with rows := dd.1 }
    let stats := { stats with duplicates_removed := stats.duplicates_removed + dd.2 }
    let df := df.setCol "category" (fun r => .str (to_title_case (r.cell "category")))
    if !df.cols.contains "price" then .error "KeyError: price"
    else
      let df := df.setCol "price" (fun r =>
        match safe_to_decimal (r.cell "price") with | some s => .str s | none => .na)
      let b := df.rows.length
      let df := df.filterRows (fun r => r.cell "price" != .na)
      let stats := { stats with missing_handled := stats.missing_handled + (b - df.rows.length) }
      if !df.cols.contains "stock_quantity" then .error "KeyError: stock_quantity"
      else
        let df := df.setCol "stock_quantity" (fun r =>
          .int ((safe_to_int (r.cell "stock_quantity")).getD 0))
        let stats := { stats with missing_handled :=
          stats.missing_handled + (df.rows.filter (fun r => r.cell "stock_quantity" == .na)).length }
        let df := df.setCol "stock_quantity" (fun r =>
          if r.cell "stock_quantity" == .na then .int 0 else r.cell "stock_quantity")
        let df := df.setCol "product_name" (fun r => cleanStrCell (r.cell "product_name"))
        let df := df.setCol "category" (fun r => cleanStrCell (r.cell "category"))
        .ok (df, stats)

/-- Customers demo input for the C9 witness. -/
def custDemo : Table :=
  ⟨["first_name", "last_name", "email", "phone", "city", "registration_date"],
   [[("first_name", .str "Alice"), ("last_name", .str "Smith"), ("email", .str "a@x.com"),
     ("phone", .str "9876543210"), ("city", .str "Pune"),
     ("registration_date", .str "2025-01-10")]]⟩
/-- Cleaned customers output of the C9 witness run. -/
def custDemoClean : Table :=
  ⟨["first_name", "last_name", "email", "phone", "city", "registration_date"],
   [[("first_name", .str "Alice"), ("last_name", .str "Smith"), ("email", .str "a@x.com"),
     ("phone", .str "+91-9876543210"), ("city", .str "Pune"),
     ("registration_date", .str "2025-01-10")]]⟩
/-- Products demo input for the C9 witness. -/
def prodDemo : Table :=
  ⟨["product_name", "category", "price", "stock_quantity"],
   [[("product_name", .str "X"), ("category", .str "electronics"),
     ("price", .str "12.5"), ("stock_quantity", .str "3")]]⟩
/-- Cleaned products output of the C9 witness run. -/
def prodDemoClean : Table :=
  ⟨["product_name", "category", "price", "stock_quantity"],
   [[("product_name", .str "X"), ("category", .str "Electronics"),
     ("price", .str "12.50"), ("stock_quantity", .int 3)]]⟩
/-- Orders output of the duplicate-row run (one synthetic order). -/
def ordersDupOut : Table :=
  ⟨["order_key", "customer_email", "order_date", "subtotal", "status"],
   [[("order_key", .str "a@x.com|2025-12-30"),
     ("customer_email", .str "a@x.com"),
     ("order_date", .str "2025-12-30"),
     ("subtotal", .str "10.00"),
     ("status", .str "Pending")]]⟩
/-- Order-items output of the duplicate-row run (a single line item). -/
def itemsDupOut : Table :=
  ⟨["order_key", "product_name", "quantity", "unit_price", "subtotal"],
   [[("order_key", .str "a@x.com|2025-12-30"),
     ("product_name", .str "X"),
     ("quantity", .int 1),
     ("unit_price", .str "10.00"),
     ("subtotal", .str "10.00")]]⟩

/-- Well-formed subtotal of a line-item row: its `subtotal` cell is the
formatted product of its `quantity` and `unit_price` cells, exactly the
value etl_pipeline.py:517 stores. -/
def subOK (r : Row) : Prop :=
  r.cell "subtotal" = .str (mulSubtotal (r.cell "quantity") (r.cell "unit_price"))

/-- Final status of an order given its aggregated (pandas-first) status
cell: cleaned, and defaulted to `"Pending"` when blank or null
(etl_pipeline.py:570-574 acting on one row). -/
def pyStatusFinal (c : Cell) : Cell :=
  match cleanStrCell c with
  | .str t => if t == "" then .str DEFAULT_ORDER_STATUS else .str t
  | v => v

/-! ## Concrete example tables -/

/-- An entirely empty dataframe (`pd.DataFrame()`): no columns, no rows. -/
def emptyTable : Table := ⟨[], []⟩

/-- Products table with two priced products, used by several runs. -/
def prodsXY : Table :=
  ⟨["product_name", "price"],
   [[("product_name", .str "X"), ("price", .str "10")],
    [("product_name", .str "Y"), ("price", .str "5")]]⟩

/-- Name-based sales input whose single order group carries the statuses
`" "` (blank but non-null) and `"Shipped"`, in that order. -/
def salesStatusCx : Table :=
  ⟨["transaction_date", "customer_email", "product_name", "quantity", "unit_price", "status"],
   [[("transaction_date", .str "2025-12-30"), ("customer_email", .str "a@x.com"),
     ("product_name", .str "X"), ("quantity", .str "1"), ("unit_price", .str "10"),
     ("status", .str " ")],
    [("transaction_date", .str "2025-12-30"), ("customer_email", .str "a@x.com"),
     ("product_name", .str "Y"), ("quantity", .str "2"), ("unit_price", .str "5"),
     ("status", .str "Shipped")]]⟩

/-- Name-based sales input consisting of two identical rows (same customer,
date, product, quantity and price) with no order identifier. -/
def salesDupCx : Table :=
  ⟨["transaction_date", "customer_email", "product_name", "quantity", "unit_price"],
   [[("transaction_date", .str "2025-12-30"), ("customer_email", .str "a@x.com"),
     ("product_name", .str "X"), ("quantity", .str "1"), ("unit_price", .str "10")],
    [("transaction_date", .str "2025-12-30"), ("customer_email", .str "a@x.com"),
     ("product_name", .str "X"), ("quantity", .str "1"), ("unit_price", .str "10")]]⟩

/-- Coded-identifier sales input: two exact duplicates plus one row with an
unparseable date. -/
def salesCodedDemo : Table :=
  ⟨["transaction_date", "customer_id", "product_id", "quantity", "unit_price", "status"],
   [[("transaction_date", .str "2025-12-30"), ("customer_id", .str "C001"),
     ("product_id", .str "P001"), ("quantity", .str "1"), ("unit_price", .str "10"),
     ("status", .str "Done")],
    [("transaction_date", .str "2025-12-30"), ("customer_id", .str "C001"),
     ("product_id", .str "P001"), ("quantity", .str "1"), ("unit_price", .str "10"),
     ("status", .str "Done")],
    [("transaction_date", .str "invalid"), ("customer_id", .str "C001"),
     ("product_id", .str "P002"), ("quantity", .str "2"), ("unit_price", .str "5"),
     ("status", .str "Done")]]⟩

/-- Customers lookup for the coded example. -/
def custCodedDemo : Table :=
  ⟨["customer_id", "email"], [[("customer_id", .str "C001"), ("email", .str "c@x.com")]]⟩

/-- Products lookup for the coded example. -/
def prodCodedDemo : Table :=
  ⟨["product_id", "product_name", "price"],
   [[("product_id", .str "P001"), ("product_name", .str "X"), ("price", .str "10")],
    [("product_id", .str "P002"), ("product_name", .str "Y"), ("price", .str "5")]]⟩

/-- The single aggregated order row of the `salesStatusCx` run. -/
def ordersStatusRow : Row :=
  [("order_key", .str "a@x.com|2025-12-30"),
   ("customer_email", .str "a@x.com"),
   ("order_date", .str "2025-12-30"),
   ("subtotal", .str "20.00"),
   ("status", .str "Pending")]

/-- Orders output of the `salesStatusCx` run. -/
def ordersStatusOut : Table :=
  ⟨["order_key", "customer_email", "order_date", "subtotal", "status"], [ordersStatusRow]⟩

/-- Order-items output of the `salesStatusCx` run. -/
def itemsStatusOut : Table :=
  ⟨["order_key", "product_name", "quantity", "unit_price", "subtotal"],
   [[("order_key", .str "a@x.com|2025-12-30"),
     ("product_name", .str "X"),
     ("quantity", .int 1),
     ("unit_price", .str "10.00"),
     ("subtotal", .str "10.00")],
    [("order_key", .str "a@x.com|2025-12-30"),
     ("product_name", .str "Y"),
     ("quantity", .int 2),
     ("unit_price", .str "5.00"),
     ("subtotal", .str "10.00")]]⟩

/-- Sales input exposing the name pair but none of the other expected
columns (`order_date`, `quantity`, `unit_price`). -/
def salesPairOnly : Table :=
  ⟨["customer_email", "product_name"],
   [[("customer_email", .str "a@x.com"), ("product_name", .str "X")]]⟩

/-- Line-item dataframe produced by `salesPrep` on the `salesStatusCx`
run (used to instantiate the group-aggregation theorem). -/
def dfStatusPrep : Table :=
  ⟨["order_date", "customer_email", "product_name", "quantity", "unit_price", "status",
    "product_price", "subtotal"],
   [[("order_date", .str "2025-12-30"), ("customer_email", .str "a@x.com"),
     ("product_name", .str "X"), ("quantity", .int 1), ("unit_price", .str "10.00"),
     ("status", .str " "), ("product_price", .str "10"), ("subtotal", .str "10.00")],
    [("order_date", .str "2025-12-30"), ("customer_email", .str "a@x.com"),
     ("product_name", .str "Y"), ("quantity", .int 2), ("unit_price", .str "5.00"),
     ("status", .str "Shipped"), ("product_price", .str "5"), ("subtotal", .str "10.00")]]⟩

/-! ## Generic lemmas about rows and tables -/

theorem find_map_set (r : Row) (c : String) (v : Cell) :
    List.find? (fun p => p.1 == c)
        (List.map (fun p => if p.1 == c then (c, v) else p) r)
      = (List.find? (fun p => p.1 == c) r).map (fun _ => (c, v)) := by
  induction r with
  | nil => rfl
  | cons p t ih =>
    rw [List.map_cons]
    by_cases hp : (p.1 == c) = true
    · rw [if_pos hp]
      rw [List.find?_cons_of_pos, List.find?_cons_of_pos]
      · rfl
      · exact hp
      · simp
    · rw [if_neg hp]
      rw [List.find?_cons_of_neg, List.find?_cons_of_neg]
      · exact ih
      · simpa using hp
      · simpa using hp

theorem find_map_set_ne (r : Row) (c c2 : String) (v : Cell) (h : (c == c2) = false) :
    List.find? (fun p => p.1 == c2)
        (List.map (fun p => if p.1 == c then (c, v) else p) r)
      = List.find? (fun p => p.1 == c2) r := by
  induction r with
  | nil => rfl
  | cons p t ih =>
    rw [List.map_cons]
    by_cases hp : (p.1 == c) = true
    · have hp1 : p.1 = c := by simpa using hp
      have h2 : (p.1 == c2) = false := by rw [hp1]; exact h
      rw [if_pos hp]
      rw [List.find?_cons_of_neg, List.find?_cons_of_neg, ih]
      · simpa using h2
      · simpa using h
    · rw [if_neg hp]
      by_cases hq : (p.1 == c2) = true
      · rw [List.find?_cons_of_pos, List.find?_cons_of_pos]
        · exact hq
        · exact hq
      · rw [List.find?_cons_of_neg, List.find?_cons_of_neg, ih]
        · simpa using hq
        · simpa using hq

theorem find_append_one (pr : String × Cell → Bool) (r : List (String × Cell)) (x : String × Cell) :
    List.find? pr (List.append r [x])
      = match List.find? pr r with
        | some y => some y
        | none => if pr x then some x else none := by
  induction r with
  | nil =>
    show List.find? pr [x] = if pr x then some x else none
    by_cases hx : pr x = true
    · rw [List.find?_cons_of_pos, if_pos hx]
      exact hx
    · rw [List.find?_cons_of_neg, if_neg hx]
      · rfl
      · simpa using hx
  | cons p t ih =>
    show List.find? pr (p :: List.append t [x]) = _
    by_cases hp : pr p = true
    · rw [List.find?_cons_of_pos, List.find?_cons_of_pos]
      · exact hp
      · exact hp
    · rw [List.find?_cons_of_neg, List.find?_cons_of_neg, ih]
      · simpa using hp
      · simpa using hp

theorem Row.cell_set_self (r : Row) (c : String) (v : Cell) :
    (r.set c v).cell c = v := by
  unfold Row.set Row.cell
  by_cases hf : (List.find? (fun p => p.1 == c) r).isSome
  · rw [if_pos hf, find_map_set]
    cases hq : List.find? (fun p => p.1 == c) r with
    | none => rw [hq] at hf; simp at hf
    | some y => simp [hq]
  · rw [if_neg hf, find_append_one]
    cases hq : List.find? (fun p => p.1 == c) r with
    | none => simp
    | some y => rw [hq] at hf; simp at hf

theorem Row.cell_set_ne (r : Row) (c c2 : String) (v : Cell) (h : ¬ c = c2) :
    (r.set c v).cell c2 = r.cell c2 := by
  have hcc : (c == c2) = false := by simpa using h
  unfold Row.set Row.cell
  by_cases hf : (List.find? (fun p => p.1 == c) r).isSome
  · rw [if_pos hf, find_map_set_ne _ _ _ _ hcc]
  · rw [if_neg hf, find_append_one]
    cases hq : List.find? (fun p => p.1 == c2) r with
    | none => simp [hcc]
    | some y => rfl

theorem Table.setCol_rows (t : Table) (c : String) (f : Row → Cell) :
    (t.setCol c f).rows = t.rows.map (fun r => r.set c (f r)) := rfl

theorem Table.mem_setCol {t : Table} {c : String} {f : Row → Cell} {r : Row}
    (h : r ∈ (t.setCol c f).rows) : ∃ r0, r0 ∈ t.rows ∧ r = r0.set c (f r0) := by
  rw [Table.setCol_rows] at h
  obtain ⟨r0, h0, he⟩ := List.mem_map.mp h
  exact ⟨r0, h0, he.symm⟩

/-! ## Claim theorems -/

/-- C1: the claim says a completely empty input (the three tables of
`pd.DataFrame()`, no columns and no rows) yields empty output tables and
all-zero statistics without an error, and `test_transform_sales_empty`
asserts exactly that; the code instead raises the schema-detection
`KeyError`, because an empty frame exposes neither identifier column
pair.  This theorem evaluates the embedded `transform_sales` at that
failing input. -/
theorem transform_sales_empty_input_raises :
    transform_sales emptyTable emptyTable emptyTable = .error (schemaErrMsg []) := rfl

/-- C5: `transform_sales` is deterministic and idempotent — two calls on
equal input tables return equal orders, order-items and statistics.  In
this embedding the transform is a pure function of its arguments (the
source touches no clock, randomness or external state), so the property
is substitution of equals. -/
theorem transform_sales_deterministic (s1 c1 p1 s2 c2 p2 : Table)
    (hs : s1 = s2) (hc : c1 = c2) (hp : p1 = p2) :
    transform_sales s1 c1 p1 = transform_sales s2 c2 p2 := by
  rw [hs, hc, hp]

/-- Witness for C5: two runs on (copies of) the duplicate-row example
agree. -/
theorem transform_sales_deterministic_witness :
    salesDupCx = salesDupCx ∧
      transform_sales salesDupCx emptyTable prodsXY
        = transform_sales salesDupCx emptyTable prodsXY :=
  ⟨rfl, transform_sales_deterministic salesDupCx emptyTable prodsXY
    salesDupCx emptyTable prodsXY rfl rfl rfl⟩

/-- C7: `normalize_phone_to_india` case analysis, exactly as the claim
states it: null input gives `""`; 10 digits after stripping non-digits
give `"+91-"` plus those digits; 12 digits starting `"91"` give `"+91-"`
plus the last ten; any other count above ten gives `"+91-"` plus the last
ten; every other count gives `""`.  The function is total, so it never
raises. -/
theorem normalize_phone_cases (c : Cell) :
    (c = .na → normalize_phone_to_india c = "") ∧
    (c ≠ .na → (String.mk ((cellStr c).data.filter Char.isDigit)).length = 10 →
      normalize_phone_to_india c
        = "+91-" ++ String.mk ((cellStr c).data.filter Char.isDigit)) ∧
    (c ≠ .na → (String.mk ((cellStr c).data.filter Char.isDigit)).length = 12 →
      (match (cellStr c).data.filter Char.isDigit with
        | '9' :: '1' :: _ => true
        | _ => false) = true →
      normalize_phone_to_india c
        = "+91-" ++ String.mk (((cellStr c).data.filter Char.isDigit).drop
            (((cellStr c).data.filter Char.isDigit).length - 10))) ∧
    (c ≠ .na → (String.mk ((cellStr c).data.filter Char.isDigit)).length > 10 →
      normalize_phone_to_india c
        = "+91-" ++ String.mk (((cellStr c).data.filter Char.isDigit).drop
            (((cellStr c).data.filter Char.isDigit).length - 10))) ∧
    (c ≠ .na → (String.mk ((cellStr c).data.filter Char.isDigit)).length ≠ 10 →
      ¬ (String.mk ((cellStr c).data.filter Char.isDigit)).length > 10 →
      normalize_phone_to_india c = "") := by
  cases c with
  | na =>
    refine ⟨fun _ => rfl, ?_, ?_, ?_, ?_⟩ <;> · intro h; exact absurd rfl h
  | str s =>
    refine ⟨fun h => Cell.noConfusion h, ?_, ?_, ?_, ?_⟩
    · intro _ h10
      simp only [normalize_phone_to_india]
      rw [if_pos (by simpa using h10)]
    · intro _ h12 h91
      simp only [normalize_phone_to_india]
      rw [if_neg (by simp [h12]), if_pos (by simp [h12, h91])]
    · intro _ hgt
      simp only [normalize_phone_to_india]
      rw [if_neg (by simpa using ne_of_gt hgt)]
      by_cases hb : ((String.mk ((cellStr (Cell.str s)).data.filter Char.isDigit)).length == 12
          && (match (cellStr (Cell.str s)).data.filter Char.isDigit with
              | '9' :: '1' :: _ => true
              | _ => false)) = true
      · rw [if_pos hb]
      · rw [if_neg hb, if_pos (by simpa using hgt)]
    · intro _ h10 hgt
      simp only [normalize_phone_to_india]
      have h12f : ¬ ((String.mk ((cellStr (Cell.str s)).data.filter Char.isDigit)).length == 12
          && (match (cellStr (Cell.str s)).data.filter Char.isDigit with
              | '9' :: '1' :: _ => true
              | _ => false)) = true := by
        intro hb
        have h12 := eq_of_beq (Bool.and_eq_true_iff.mp hb).1
        omega
      rw [if_neg (by simpa using h10), if_neg h12f, if_neg (by simpa using hgt)]
  | int n =>
    refine ⟨fun h => Cell.noConfusion h, ?_, ?_, ?_, ?_⟩
    · intro _ h10
      simp only [normalize_phone_to_india]
      rw [if_pos (by simpa using h10)]
    · intro _ h12 h91
      simp only [normalize_phone_to_india]
      rw [if_neg (by simp [h12]), if_pos (by simp [h12, h91])]
    · intro _ hgt
      simp only [normalize_phone_to_india]
      rw [if_neg (by simpa using ne_of_gt hgt)]
      by_cases hb : ((String.mk ((cellStr (Cell.int n)).data.filter Char.isDigit)).length == 12
          && (match (cellStr (Cell.int n)).data.filter Char.isDigit with
              | '9' :: '1' :: _ => true
              | _ => false)) = true
      · rw [if_pos hb]
      · rw [if_neg hb, if_pos (by simpa using hgt)]
    · intro _ h10 hgt
      simp only [normalize_phone_to_india]
      have h12f : ¬ ((String.mk ((cellStr (Cell.int n)).data.filter Char.isDigit)).length == 12
          && (match (cellStr (Cell.int n)).data.filter Char.isDigit with
              | '9' :: '1' :: _ => true
              | _ => false)) = true := by
        intro hb
        have h12 := eq_of_beq (Bool.and_eq_true_iff.mp hb).1
        omega
      rw [if_neg (by simpa using h10), if_neg h12f, if_neg (by simpa using hgt)]

/-- Witness for C7: the spec's own example, a plain ten-digit number. -/
theorem normalize_phone_cases_witness :
    Cell.str "9876543210" ≠ Cell.na ∧
      normalize_phone_to_india (.str "9876543210") = "+91-9876543210" :=
  ⟨by decide,
   ((normalize_phone_cases (.str "9876543210")).2.1 (by decide) (by decide)).trans (by decide)⟩

/-- Counterexample for C8: a column whose only entry is null has no
non-null values, so the claim's condition "every non-null value parses as
an integer" holds vacuously, yet `is_series_numeric` classifies the
column as coded (`false`), because of its explicit empty-after-`dropna`
check. -/
theorem is_series_numeric_allnull_cx :
    (([Cell.na].filter (fun c => c != .na)).all (fun c => (safe_to_int c).isSome) = true)
      ∧ is_series_numeric [Cell.na] = false := by
  constructor
  · rfl
  · rfl

/-- C8 (amended): `is_series_numeric` returns `true` exactly when the
column has at least one non-null value and every non-null value parses
via `safe_to_int`; a column with no non-null values is classified coded,
not numeric. -/
theorem is_series_numeric_spec (cells : List Cell) :
    is_series_numeric cells = true ↔
      ((∃ x ∈ cells, x ≠ Cell.na) ∧
        ∀ x ∈ cells, x ≠ Cell.na → (safe_to_int x).isSome = true) := by
  unfold is_series_numeric
  by_cases h : (cells.filter (fun c => c != Cell.na)).isEmpty = true
  · rw [if_pos h]
    simp only [List.isEmpty_iff, List.filter_eq_nil_iff] at h
    constructor
    · intro hfalse
      exact absurd hfalse (by simp)
    · rintro ⟨⟨x, hx, hxne⟩, _⟩
      exact absurd (by simpa using h x hx) hxne
  · rw [if_neg h]
    simp only [List.isEmpty_iff] at h
    constructor
    · intro hall
      rw [List.all_eq_true] at hall
      constructor
      · obtain ⟨x, hx⟩ := List.exists_mem_of_ne_nil _ h
        have := List.mem_filter.mp hx
        exact ⟨x, this.1, by simpa using this.2⟩
      · intro x hx hxne
        exact hall x (List.mem_filter.mpr ⟨hx, by simpa using hxne⟩)
    · rintro ⟨_, hall⟩
      rw [List.all_eq_true]
      intro x hx
      have := List.mem_filter.mp hx
      exact hall x this.1 (by simpa using this.2)

/-- C10: on the coded-identifier path the translation step
(`mappedBranch`, the branch of `salesPrep` at etl_pipeline.py:386-416)
adds exactly `processed - (number of surviving translated rows)` to
`missing_handled`, leaving `processed` and `duplicates_removed` alone.
Because `processed` is the raw row count, rows already removed as
duplicates or dropped for bad dates are counted again: the concrete run
(two duplicate rows plus one bad-date row) ends with
`duplicates_removed + missing_handled = 4 > 3 = processed`. -/
theorem coded_translation_missing_handled :
    (∀ df c p st, (mappedBranch df c p st).2
        = { st with missing_handled :=
              st.missing_handled
                + (st.processed - (translateCoded (mapCodes df c p) p).length) }) ∧
    transform_sales salesCodedDemo custCodedDemo prodCodedDemo
      = .ok (⟨["order_key", "customer_email", "order_date", "subtotal", "status"],
              [[("order_key", .str "c@x.com|2025-12-30"),
                ("customer_email", .str "c@x.com"),
                ("order_date", .str "2025-12-30"),
                ("subtotal", .str "10.00"),
                ("status", .str "Done")]]⟩,
             ⟨["order_key", "product_name", "quantity", "unit_price", "subtotal"],
              [[("order_key", .str "c@x.com|2025-12-30"),
                ("product_name", .str "X"),
                ("quantity", .int 1),
                ("unit_price", .str "10.00"),
                ("subtotal", .str "10.00")]]⟩,
             ⟨3, 1, 3⟩) ∧
    3 < 1 + 3 :=
  ⟨fun _ _ _ _ => rfl, rfl, by decide⟩

/-- Counterexample for C2: this sales table exposes the column pair
`{customer_email, product_name}`, so by the claim `transform_sales` must
not raise; but it lacks `order_date`, `quantity` and `unit_price`, so the
`drop_duplicates(subset=...)` call raises a `KeyError` before anything
else happens. -/
theorem schema_error_missing_aux_cx :
    hasNamePair salesPairOnly = true ∧
      transform_sales salesPairOnly emptyTable emptyTable = .error dedupKeyErr :=
  ⟨rfl, rfl⟩

/-- Counterexample for C4: the group behind the single order carries the
statuses `" "` (blank, non-null, first) and `"Shipped"` (non-blank); the
claim says the order's status is the first non-blank value, `"Shipped"`,
but pandas `agg("first")` picks the first non-null value `" "`, which is
blank after stripping, so the code defaults the status to `"Pending"`
(and counts it). -/
theorem order_status_first_nonblank_cx :
    transform_sales salesStatusCx emptyTable prodsXY
      = .ok (ordersStatusOut, itemsStatusOut, ⟨2, 0, 1⟩) ∧
    ordersStatusRow.cell "status" = .str "Pending" ∧
    (salesStatusCx.rows.map (fun r => r.cell "status")).filter
        (fun v => cleanStrCell v != .str "") = [.str "Shipped"] :=
  ⟨rfl, rfl, by decide⟩

/-- Counterexample for C6: two sales rows sharing customer email and date
with no explicit order id, but identical in every deduplication-key
column; the claim promises two line items, yet deduplication removes one
of the rows first, so exactly one line item (and one order) results. -/
theorem grouping_duplicate_rows_cx :
    transform_sales salesDupCx emptyTable prodsXY
      = .ok (ordersDupOut, itemsDupOut, ⟨2, 1, 1⟩) ∧
    salesDupCx.rows.length = 2 ∧ itemsDupOut.rows.length = 1 :=
  ⟨rfl, rfl, rfl⟩

/-! ## Stats plumbing lemmas -/

theorem finalizePrep_ok {df : Table} {b : Bool} {st : Stats} {df2 : Table} {b2 : Bool}
    {st2 : Stats} (h : finalizePrep df b st = .ok (df2, b2, st2)) :
    df2 = (priceFinalize df st).1 ∧ b2 = b ∧ st2 = (priceFinalize df st).2 := by
  unfold finalizePrep at h
  split at h
  · simp at h
  · simp only [Except.ok.injEq, Prod.mk.injEq] at h
    exact ⟨h.1.symm, h.2.1.symm, h.2.2.symm⟩

theorem statusDefault_processed (o : Table) (st : Stats) :
    ((statusDefault o st).2).processed = st.processed := by
  simp only [statusDefault]
  split <;> rfl

theorem statusDefault_duplicates (o : Table) (st : Stats) :
    ((statusDefault o st).2).duplicates_removed = st.duplicates_removed := by
  simp only [statusDefault]
  split <;> rfl

theorem salesPrep_processed {s c p : Table} {df : Table} {b : Bool} {st : Stats}
    (h : salesPrep s c p = .ok (df, b, st)) : st.processed = s.rows.length := by
  simp only [salesPrep] at h
  split at h
  · simp at h
  · split at h
    · simp at h
    · split at h
      · split at h
        · split at h
          · obtain ⟨-, -, h3⟩ := finalizePrep_ok h
            rw [h3]; rfl
          · obtain ⟨-, -, h3⟩ := finalizePrep_ok h
            rw [h3]; rfl
        · obtain ⟨-, -, h3⟩ := finalizePrep_ok h
          rw [h3]; rfl
      · obtain ⟨-, -, h3⟩ := finalizePrep_ok h
        rw [h3]; rfl

/-- C9: the `processed` field of each transform's statistics record
always equals the raw input row count — `processed` is set to `len(df)`
on entry and never modified, however many rows are later dropped,
deduplicated or defaulted. -/
theorem transforms_processed_eq_input :
    (∀ df today t st, transform_customers df today = .ok (t, st) →
        st.processed = df.rows.length) ∧
    (∀ df t st, transform_products df = .ok (t, st) → st.processed = df.rows.length) ∧
    (∀ s c p o i st, transform_sales s c p = .ok (o, i, st) →
        st.processed = s.rows.length) := by
  refine ⟨?_, ?_, ?_⟩
  · intro df today t st h
    simp only [transform_customers] at h
    repeat' split at h
    all_goals first
      | exact Except.noConfusion h
      | (simp only [Except.ok.injEq, Prod.mk.injEq] at h; rw [← h.2]; try rfl)
  · intro df t st h
    simp only [transform_products] at h
    repeat' split at h
    all_goals first
      | exact Except.noConfusion h
      | (simp only [Except.ok.injEq, Prod.mk.injEq] at h; rw [← h.2]; try rfl)
  · intro s c p o i st h
    simp only [transform_sales] at h
    split at h
    · simp at h
    · rename_i val heq
      obtain ⟨df, b, st0⟩ := val
      simp only [Except.ok.injEq, Prod.mk.injEq] at h
      rw [← h.2.2, statusDefault_processed]
      exact salesPrep_processed heq

/-- Witness for C9: concrete runs of all three transforms, with the
`processed` conclusion instantiated by the theorem. -/
theorem transforms_processed_eq_input_witness :
    transform_customers custDemo "2025-01-15" = .ok (custDemoClean, ⟨1, 0, 0⟩) ∧
      (⟨1, 0, 0⟩ : Stats).processed = custDemo.rows.length ∧
      transform_products prodDemo = .ok (prodDemoClean, ⟨1, 0, 0⟩) ∧
      (⟨1, 0, 0⟩ : Stats).processed = prodDemo.rows.length ∧
      (⟨2, 1, 1⟩ : Stats).processed = salesDupCx.rows.length :=
  ⟨rfl,
   transforms_processed_eq_input.1 custDemo "2025-01-15" custDemoClean ⟨1, 0, 0⟩ rfl,
   rfl,
   transforms_processed_eq_input.2.1 prodDemo prodDemoClean ⟨1, 0, 0⟩ rfl,
   transforms_processed_eq_input.2.2 salesDupCx emptyTable prodsXY ordersDupOut itemsDupOut
     ⟨2, 1, 1⟩ rfl⟩

/-! ## Structure of the orders and items tables -/

theorem itemSel_key (b : Bool) (r : Row) :
    (itemSel b r).cell "order_key" = r.cell "order_key" := by cases b <;> rfl

theorem itemSel_sub (b : Bool) (r : Row) :
    (itemSel b r).cell "subtotal" = r.cell "subtotal" := by cases b <;> rfl

theorem itemSel_qty (b : Bool) (r : Row) :
    (itemSel b r).cell "quantity" = r.cell "quantity" := by cases b <;> rfl

theorem itemSel_price (b : Bool) (r : Row) :
    (itemSel b r).cell "unit_price" = r.cell "unit_price" := by cases b <;> rfl

theorem buildItems_rows (df : Table) (b : Bool) :
    (buildItems df b).rows = df.rows.map (itemSel b) := rfl

theorem buildOrders_mem {df : Table} {b : Bool} {r : Row}
    (h : r ∈ (buildOrders df b).rows) : ∃ k, r = aggRowFor df.rows b k := by
  simp only [buildOrders] at h
  obtain ⟨k, -, e⟩ := List.mem_map.mp h
  exact ⟨k, e.symm⟩

theorem aggRowFor_key (rows : List Row) (b : Bool) (k : String) :
    (aggRowFor rows b k).cell "order_key" = .str k := by cases b <;> rfl

theorem aggRowFor_sub (rows : List Row) (b : Bool) (k : String) :
    (aggRowFor rows b k).cell "subtotal"
      = .str (sumSubtotal ((rows.filter (fun r => r.cell "order_key" == Cell.str k)).map
          (fun r => r.cell "subtotal"))) := by cases b <;> rfl

theorem aggRowFor_date (rows : List Row) (b : Bool) (k : String) :
    (aggRowFor rows b k).cell "order_date"
      = firstNonNA ((rows.filter (fun r => r.cell "order_key" == Cell.str k)).map
          (fun r => r.cell "order_date")) := by cases b <;> rfl

theorem aggRowFor_ref (rows : List Row) (b : Bool) (k : String) :
    (aggRowFor rows b k).cell (if b then "customer_id" else "customer_email")
      = firstNonNA ((rows.filter (fun r => r.cell "order_key" == Cell.str k)).map
          (fun r => r.cell (if b then "customer_id" else "customer_email"))) := by
  cases b <;> rfl

theorem aggRowFor_status (rows : List Row) (b : Bool) (k : String) :
    (aggRowFor rows b k).cell "status"
      = firstNonNA ((rows.filter (fun r => r.cell "order_key" == Cell.str k)).map
          (fun r => r.cell "status")) := by cases b <;> rfl

theorem itemSel_filter_sub (b : Bool) (l : List Row) (k : String) :
    ((l.map (itemSel b)).filter (fun it => it.cell "order_key" == Cell.str k)).map
        (fun it => it.cell "subtotal")
      = (l.filter (fun r => r.cell "order_key" == Cell.str k)).map
          (fun r => r.cell "subtotal") := by
  induction l with
  | nil => rfl
  | cons r t ih =>
    simp only [List.map_cons, List.filter_cons, itemSel_key]
    by_cases hk : (r.cell "order_key" == Cell.str k) = true
    · rw [if_pos hk, if_pos hk]
      simp only [List.map_cons, itemSel_sub, ih]
    · rw [if_neg hk, if_neg hk]
      exact ih

theorem subOK_set {r : Row} {c : String} {v : Cell} (h1 : ¬ c = "subtotal")
    (h2 : ¬ c = "quantity") (h3 : ¬ c = "unit_price") (hs : subOK r) :
    subOK (r.set c v) := by
  unfold subOK at hs ⊢
  rw [Row.cell_set_ne _ _ _ _ h1, Row.cell_set_ne _ _ _ _ h2, Row.cell_set_ne _ _ _ _ h3]
  exact hs

theorem priceFinalize_subOK (df : Table) (st : Stats) :
    ∀ r ∈ ((priceFinalize df st).1).rows, subOK r := by
  intro r hr
  obtain ⟨r0, h0, e⟩ := Table.mem_setCol hr
  rw [e]
  unfold subOK
  rw [Row.cell_set_self, Row.cell_set_ne _ _ _ _ (by decide),
    Row.cell_set_ne _ _ _ _ (by decide)]

theorem assignKey_subOK {df : Table} {b : Bool}
    (hall : ∀ r ∈ df.rows, subOK r) : ∀ r ∈ (assignKey df b).rows, subOK r := by
  intro r hr
  simp only [assignKey] at hr
  split at hr
  · obtain ⟨r0, h0, e⟩ := Table.mem_setCol hr
    rw [e]
    exact subOK_set (by decide) (by decide) (by decide) (hall r0 h0)
  · obtain ⟨r1, h1, e1⟩ := Table.mem_setCol hr
    obtain ⟨r0, h0, e0⟩ := Table.mem_setCol h1
    rw [e1, e0]
    exact subOK_set (by decide) (by decide) (by decide)
      (subOK_set (by decide) (by decide) (by decide) (hall r0 h0))

theorem ensureStatus_subOK {df : Table}
    (hall : ∀ r ∈ df.rows, subOK r) : ∀ r ∈ (ensureStatus df).rows, subOK r := by
  intro r hr
  simp only [ensureStatus] at hr
  split at hr
  · exact hall r hr
  · obtain ⟨r0, h0, e⟩ := Table.mem_setCol hr
    rw [e]
    exact subOK_set (by decide) (by decide) (by decide) (hall r0 h0)

theorem salesPrep_subOK {s c p : Table} {df : Table} {b : Bool} {st : Stats}
    (h : salesPrep s c p = .ok (df, b, st)) : ∀ r ∈ df.rows, subOK r := by
  simp only [salesPrep] at h
  repeat' split at h
  all_goals first
    | exact Except.noConfusion h
    | (obtain ⟨h1, -, -⟩ := finalizePrep_ok h
       rw [h1]
       exact priceFinalize_subOK _ _)

theorem ite_clean_eq_pyStatusFinal (x : Cell) :
    (if cleanStrCell x == Cell.str "" then Cell.str DEFAULT_ORDER_STATUS else cleanStrCell x)
      = pyStatusFinal x := by
  cases x with
  | na => rfl
  | str s =>
    simp only [cleanStrCell, pyStatusFinal]
    by_cases h : pyStrip s = ""
    · rw [h]
      rfl
    · rw [if_neg (by simpa using h), if_neg (by simpa using h)]
  | int n =>
    simp only [cleanStrCell, pyStatusFinal]
    by_cases h : toString n = ""
    · rw [h]
      rfl
    · rw [if_neg (by simpa using h), if_neg (by simpa using h)]

theorem pyStatusFinal_of_ne {x : Cell} (h : ¬ cleanStrCell x = Cell.str "") :
    pyStatusFinal x = cleanStrCell x := by
  cases x with
  | na => exact absurd rfl h
  | str s =>
    simp only [cleanStrCell, pyStatusFinal] at h ⊢
    rw [if_neg (by simpa using h)]
  | int n =>
    simp only [cleanStrCell, pyStatusFinal] at h ⊢
    rw [if_neg (by simpa using h)]

theorem statusDefault_mem {o : Table} {st : Stats} {r : Row}
    (h : r ∈ ((statusDefault o st).1).rows) :
    ∃ r0 ∈ o.rows, (∀ c2, ¬ "status" = c2 → r.cell c2 = r0.cell c2) ∧
      r.cell "status" = pyStatusFinal (r0.cell "status") := by
  simp only [statusDefault] at h
  split at h
  · obtain ⟨r1, h1, e1⟩ := Table.mem_setCol h
    obtain ⟨r0, h0, e0⟩ := Table.mem_setCol h1
    refine ⟨r0, h0, ?_, ?_⟩
    · intro c2 hne
      rw [e1, Row.cell_set_ne _ _ _ _ hne, e0, Row.cell_set_ne _ _ _ _ hne]
    · rw [e1, Row.cell_set_self, e0, Row.cell_set_self]
      exact ite_clean_eq_pyStatusFinal _
  · rename_i hcnt
    obtain ⟨r0, h0, e0⟩ := Table.mem_setCol h
    have hcell : r.cell "status" = cleanStrCell (r0.cell "status") := by
      rw [e0, Row.cell_set_self]
    refine ⟨r0, h0, ?_, ?_⟩
    · intro c2 hne
      rw [e0, Row.cell_set_ne _ _ _ _ hne]
    · have hflt : List.filter (fun r2 => r2.cell "status" == Cell.str "")
          ((o.setCol "status" (fun r2 => cleanStrCell (r2.cell "status"))).rows) = [] := by
        have hz : (List.filter (fun r2 => r2.cell "status" == Cell.str "")
            ((o.setCol "status" (fun r2 => cleanStrCell (r2.cell "status"))).rows)).length = 0 :=
          Nat.eq_zero_of_not_pos hcnt
        exact List.eq_nil_of_length_eq_zero hz
      have hne2 : ¬ (r.cell "status" == Cell.str "") = true := by
        intro hb
        have hmem2 : r ∈ List.filter (fun r2 => r2.cell "status" == Cell.str "")
            ((o.setCol "status" (fun r2 => cleanStrCell (r2.cell "status"))).rows) :=
          List.mem_filter.mpr ⟨h, hb⟩
        rw [hflt] at hmem2
        exact absurd hmem2 (List.not_mem_nil r)
      rw [hcell] at hne2
      rw [hcell]
      exact (pyStatusFinal_of_ne (by simpa using hne2)).symm

/-- C3: conservation of order totals.  For every order row produced by
`transform_sales`, its aggregated `subtotal` cell (the value loaded as
`total_amount`) is `sumSubtotal` — the two-decimal formatting, applied
once at the end, of the exact sum of the parsed `subtotal` values — of
the line items sharing its `order_key`; and every line item's `subtotal`
cell is `mulSubtotal` — quantity times unit price, formatted to two
decimals — of its own `quantity` and `unit_price` cells. -/
theorem order_total_conservation (s c p o i : Table) (st : Stats)
    (h : transform_sales s c p = .ok (o, i, st)) :
    (∀ r ∈ o.rows,
        r.cell "subtotal" = .str (sumSubtotal
          ((i.rows.filter (fun it => it.cell "order_key" == r.cell "order_key")).map
            (fun it => it.cell "subtotal")))) ∧
    (∀ it ∈ i.rows,
        it.cell "subtotal" = .str (mulSubtotal (it.cell "quantity") (it.cell "unit_price"))) := by
  simp only [transform_sales] at h
  split at h
  · exact Except.noConfusion h
  · rename_i val heq
    obtain ⟨df0, b, st0⟩ := val
    simp only [Except.ok.injEq, Prod.mk.injEq] at h
    obtain ⟨ho, hi, -⟩ := h
    constructor
    · intro r hr
      rw [← ho] at hr
      obtain ⟨r0, h0, hcells, -⟩ := statusDefault_mem hr
      obtain ⟨k, hk⟩ := buildOrders_mem h0
      have hsub : r.cell "subtotal" = r0.cell "subtotal" := hcells _ (by decide)
      have hkey : r.cell "order_key" = r0.cell "order_key" := hcells _ (by decide)
      rw [hsub, hkey, hk, aggRowFor_key, aggRowFor_sub, ← hi, buildItems_rows,
        itemSel_filter_sub]
    · intro it hit
      rw [← hi, buildItems_rows] at hit
      obtain ⟨r0, h0, e⟩ := List.mem_map.mp hit
      rw [← e, itemSel_sub, itemSel_qty, itemSel_price]
      exact ensureStatus_subOK (assignKey_subOK (salesPrep_subOK heq)) r0 h0

/-- Witness for C3: the two-line-item run, instantiated at its single
order row. -/
theorem order_total_conservation_witness :
    transform_sales salesStatusCx emptyTable prodsXY
        = .ok (ordersStatusOut, itemsStatusOut, ⟨2, 0, 1⟩) ∧
      ordersStatusRow.cell "subtotal" = .str (sumSubtotal
        ((itemsStatusOut.rows.filter
            (fun it => it.cell "order_key" == ordersStatusRow.cell "order_key")).map
          (fun it => it.cell "subtotal"))) :=
  ⟨rfl,
   (order_total_conservation salesStatusCx emptyTable prodsXY ordersStatusOut itemsStatusOut
       ⟨2, 0, 1⟩ rfl).1 ordersStatusRow (by decide)⟩

theorem statusDefault_missing (o : Table) (st : Stats) :
    ((statusDefault o st).2).missing_handled
      = st.missing_handled
        + (o.rows.filter (fun r => cleanStrCell (r.cell "status") == Cell.str "")).length := by
  have hcnt : (List.filter (fun r => r.cell "status" == Cell.str "")
        ((o.setCol "status" (fun r => cleanStrCell (r.cell "status"))).rows)).length
      = (o.rows.filter (fun r => cleanStrCell (r.cell "status") == Cell.str "")).length := by
    rw [Table.setCol_rows, List.filter_map, List.length_map]
    congr 1
    apply List.filter_congr
    intro r _
    simp only [Function.comp_apply]
    rw [Row.cell_set_self]
  simp only [statusDefault]
  split
  · dsimp only
    rw [hcnt]
  · rename_i hneg
    dsimp only
    have hz : (o.rows.filter (fun r => cleanStrCell (r.cell "status") == Cell.str "")).length = 0 := by
      rw [← hcnt]
      exact Nat.eq_zero_of_not_pos hneg
    omega

/-- C4 (amended): each aggregated order carries, for `order_date`, the
customer reference and `status`, the pandas `"first"` aggregate of its
`order_key` group — the first NON-NULL value in input order (for a group
whose first non-null status is blank after stripping, or with no
non-null status at all, the status is defaulted to `"Pending"`, via
`pyStatusFinal`); and the defaulted statuses are counted into
`missing_handled`.  The original claim's "first non-blank status" is
refuted by `order_status_first_nonblank_cx`. -/
theorem order_group_first_semantics (s c p df : Table) (b : Bool) (st0 : Stats)
    (o i : Table) (st : Stats)
    (hprep : salesPrep s c p = .ok (df, b, st0))
    (h : transform_sales s c p = .ok (o, i, st)) :
    (∀ r ∈ o.rows, ∃ k,
      r.cell "order_key" = .str k ∧
      r.cell "order_date" = firstNonNA
        (((ensureStatus (assignKey df b)).rows.filter
            (fun r2 => r2.cell "order_key" == Cell.str k)).map
          (fun r2 => r2.cell "order_date")) ∧
      r.cell (if b then "customer_id" else "customer_email") = firstNonNA
        (((ensureStatus (assignKey df b)).rows.filter
            (fun r2 => r2.cell "order_key" == Cell.str k)).map
          (fun r2 => r2.cell (if b then "customer_id" else "customer_email"))) ∧
      r.cell "status" = pyStatusFinal (firstNonNA
        (((ensureStatus (assignKey df b)).rows.filter
            (fun r2 => r2.cell "order_key" == Cell.str k)).map
          (fun r2 => r2.cell "status")))) ∧
    st.missing_handled = st0.missing_handled
      + ((buildOrders (ensureStatus (assignKey df b)) b).rows.filter
          (fun r2 => cleanStrCell (r2.cell "status") == Cell.str "")).length := by
  simp only [transform_sales, hprep] at h
  simp only [Except.ok.injEq, Prod.mk.injEq] at h
  obtain ⟨ho, hi, hst⟩ := h
  constructor
  · intro r hr
    rw [← ho] at hr
    obtain ⟨r0, h0, hcells, hstat⟩ := statusDefault_mem hr
    obtain ⟨k, hk⟩ := buildOrders_mem h0
    refine ⟨k, ?_, ?_, ?_, ?_⟩
    · rw [hcells _ (by decide), hk, aggRowFor_key]
    · rw [hcells _ (by decide), hk, aggRowFor_date]
    · rw [hcells _ (by cases b <;> decide), hk, aggRowFor_ref]
    · rw [hstat, hk, aggRowFor_status]
  · rw [← hst, statusDefault_missing]

/-- Witness for C4: the status-example run, instantiated on the stats
equation (one defaulted status is counted). -/
theorem order_group_first_semantics_witness :
    salesPrep salesStatusCx emptyTable prodsXY = .ok (dfStatusPrep, false, ⟨2, 0, 0⟩) ∧
      (⟨2, 0, 1⟩ : Stats).missing_handled = (⟨2, 0, 0⟩ : Stats).missing_handled
        + ((buildOrders (ensureStatus (assignKey dfStatusPrep false)) false).rows.filter
            (fun r2 => cleanStrCell (r2.cell "status") == Cell.str "")).length :=
  ⟨rfl,
   (order_group_first_semantics salesStatusCx emptyTable prodsXY dfStatusPrep false ⟨2, 0, 0⟩
       ordersStatusOut itemsStatusOut ⟨2, 0, 1⟩ rfl rfl).2⟩

theorem map_congr_rows {f g : Row → Cell} {l : List Row} (h : ∀ r ∈ l, f r = g r) :
    l.map f = l.map g := by
  induction l with
  | nil => rfl
  | cons a t ih =>
    rw [List.map_cons, List.map_cons, h a (by simp),
      ih (fun r hr => h r (by simp [hr]))]

theorem synthKey_set_order_id (r : Row) (b : Bool) (v : Cell) :
    synthKey (r.set "order_id" v) b = synthKey r b := by
  unfold synthKey
  rw [Row.cell_set_ne _ _ _ _ (by decide), Row.cell_set_ne _ _ _ _ (by decide),
    Row.cell_set_ne _ _ _ _ (by decide)]

theorem assignKey_keys (df : Table) (b : Bool) :
    (assignKey df b).rows.map (fun r => r.cell "order_key")
      = df.rows.map (fun r => pyOrderKey (df.cols.contains "order_id") r b) := by
  simp only [assignKey]
  split
  · rename_i hcond
    rw [Table.setCol_rows, List.map_map]
    apply map_congr_rows
    intro r hr
    simp only [Function.comp_apply]
    rw [Row.cell_set_self]
    unfold pyOrderKey
    by_cases hc : df.cols.contains "order_id" = true
    · rw [if_pos hc]
      have hall : (df.rows.all (fun r2 => r2.cell "order_id" == Cell.na)) = true := by
        rcases Bool.or_eq_true_iff.mp hcond with hl | hrr
        · rw [hc] at hl
          simp at hl
        · exact hrr
      have hna : r.cell "order_id" = Cell.na := by
        simpa using List.all_eq_true.mp hall r hr
      rw [hna]
      rfl
    · rw [if_neg hc]
  · rename_i hcond
    rw [Table.setCol_rows, Table.setCol_rows, List.map_map, List.map_map]
    apply map_congr_rows
    intro r hr
    simp only [Function.comp_apply]
    rw [Row.cell_set_self, Row.cell_set_self]
    have hc : df.cols.contains "order_id" = true := by
      rcases Bool.or_eq_false_iff.mp (Bool.of_not_eq_true hcond) with ⟨hl, -⟩
      simpa using hl
    unfold pyOrderKey
    rw [if_pos hc, synthKey_set_order_id]

theorem ensure_assign_keys (df : Table) (b : Bool) :
    (ensureStatus (assignKey df b)).rows.map (fun r => r.cell "order_key")
      = df.rows.map (fun r => pyOrderKey (df.cols.contains "order_id") r b) := by
  have h2 : (ensureStatus (assignKey df b)).rows.map (fun r => r.cell "order_key")
      = (assignKey df b).rows.map (fun r => r.cell "order_key") := by
    simp only [ensureStatus]
    split
    · rfl
    · rw [Table.setCol_rows, List.map_map]
      apply map_congr_rows
      intro r hr
      simp only [Function.comp_apply]
      rw [Row.cell_set_ne _ _ _ _ (by decide)]
  rw [h2, assignKey_keys]

theorem statusDefault_keys (o : Table) (st : Stats) :
    ((statusDefault o st).1).rows.map (fun r => r.cell "order_key")
      = o.rows.map (fun r => r.cell "order_key") := by
  simp only [statusDefault]
  split
  · rw [Table.setCol_rows, Table.setCol_rows, List.map_map, List.map_map]
    apply map_congr_rows
    intro r hr
    simp only [Function.comp_apply]
    rw [Row.cell_set_ne _ _ _ _ (by decide), Row.cell_set_ne _ _ _ _ (by decide)]
  · rw [Table.setCol_rows, List.map_map]
    apply map_congr_rows
    intro r hr
    simp only [Function.comp_apply]
    rw [Row.cell_set_ne _ _ _ _ (by decide)]

theorem filterMap_orderKey (l : List Row) (ks : List String)
    (h : l.map (fun r => r.cell "order_key") = ks.map Cell.str) :
    l.filterMap orderKeyStr? = ks := by
  induction l generalizing ks with
  | nil =>
    cases ks with
    | nil => rfl
    | cons k kt => simp at h
  | cons r t ih =>
    cases ks with
    | nil => simp at h
    | cons k kt =>
      simp only [List.map_cons, List.cons.injEq] at h
      rw [List.filterMap_cons]
      have hk : orderKeyStr? r = some k := by
        simp [orderKeyStr?, h.1]
      rw [hk, ih kt h.2]

theorem items_keys {s c p df : Table} {b : Bool} {st0 : Stats} {o i : Table} {st : Stats}
    (hprep : salesPrep s c p = .ok (df, b, st0))
    (h : transform_sales s c p = .ok (o, i, st)) :
    i.rows.map (fun r => r.cell "order_key")
      = df.rows.map (fun r => pyOrderKey (df.cols.contains "order_id") r b) := by
  simp only [transform_sales, hprep] at h
  simp only [Except.ok.injEq, Prod.mk.injEq] at h
  obtain ⟨-, hi, -⟩ := h
  rw [← hi, buildItems_rows, List.map_map]
  have h1 : (ensureStatus (assignKey df b)).rows.map
        ((fun r => r.cell "order_key") ∘ itemSel b)
      = (ensureStatus (assignKey df b)).rows.map (fun r => r.cell "order_key") := by
    apply map_congr_rows
    intro r hr
    simp only [Function.comp_apply]
    exact itemSel_key b r
  rw [h1, ensure_assign_keys]

theorem pyOrderKey_blank_synth {r : Row} {X D : String}
    (hbl : cleanStrCell (r.cell "order_id") = .str "")
    (he : r.cell "customer_email" = .str X)
    (hd : r.cell "order_date" = .str D) (hb : Bool) :
    pyOrderKey hb r false = .str (X ++ "|" ++ D) := by
  have hsyn : synthKey r false = .str (X ++ "|" ++ D) := by
    simp [synthKey, he, hd]
  cases hb with
  | false => simpa [pyOrderKey] using hsyn
  | true => simp [pyOrderKey, hbl, hsyn]

/-- C6 (amended): the per-row order-key rule of the claim is exact — each
line item's `order_key` is the row's cleaned non-blank supplied `order_id`
if the column exists and the value is non-blank, else the synthesized
reference-`"|"`-date key (`pyOrderKey`); and in the name-based scenario
the grouping consequence holds only when the two surviving rows are not
exact duplicates: two SURVIVING rows sharing customer email `X` and date
`D` with blank/absent order ids yield exactly one order with key
`X ++ "|" ++ D` and two line items carrying it.  (Two fully identical
sales rows are instead deduplicated before this point, leaving one line
item: `grouping_duplicate_rows_cx`.) -/
theorem order_key_rule_and_grouping :
    (∀ s c p df : Table, ∀ b : Bool, ∀ st0 : Stats, ∀ o i : Table, ∀ st : Stats,
      salesPrep s c p = .ok (df, b, st0) →
      transform_sales s c p = .ok (o, i, st) →
      i.rows.map (fun r => r.cell "order_key")
        = df.rows.map (fun r => pyOrderKey (df.cols.contains "order_id") r b)) ∧
    (∀ s c p df : Table, ∀ st0 : Stats, ∀ o i : Table, ∀ st : Stats,
      ∀ X D : String, ∀ r1 r2 : Row,
      salesPrep s c p = .ok (df, false, st0) →
      transform_sales s c p = .ok (o, i, st) →
      df.rows = [r1, r2] →
      cleanStrCell (r1.cell "order_id") = .str "" →
      cleanStrCell (r2.cell "order_id") = .str "" →
      r1.cell "customer_email" = .str X → r1.cell "order_date" = .str D →
      r2.cell "customer_email" = .str X → r2.cell "order_date" = .str D →
      o.rows.map (fun r => r.cell "order_key") = [.str (X ++ "|" ++ D)] ∧
      i.rows.map (fun r => r.cell "order_key")
        = [.str (X ++ "|" ++ D), .str (X ++ "|" ++ D)]) := by
  constructor
  · intro s c p df b st0 o i st hprep h
    exact items_keys hprep h
  · intro s c p df st0 o i st X D r1 r2 hprep h hrows hb1 hb2 he1 hd1 he2 hd2
    have hik := items_keys hprep h
    have hmap : df.rows.map (fun r => pyOrderKey (df.cols.contains "order_id") r false)
        = [.str (X ++ "|" ++ D), .str (X ++ "|" ++ D)] := by
      rw [hrows, List.map_cons, List.map_cons, List.map_nil,
        pyOrderKey_blank_synth hb1 he1 hd1 (df.cols.contains "order_id"),
        pyOrderKey_blank_synth hb2 he2 hd2 (df.cols.contains "order_id")]
    refine ⟨?_, by rw [hik, hmap]⟩
    simp only [transform_sales, hprep] at h
    simp only [Except.ok.injEq, Prod.mk.injEq] at h
    obtain ⟨ho, -, -⟩ := h
    have hdf2 : (ensureStatus (assignKey df false)).rows.map (fun r => r.cell "order_key")
        = [.str (X ++ "|" ++ D), .str (X ++ "|" ++ D)] := by
      rw [ensure_assign_keys, hmap]
    have hfm : (ensureStatus (assignKey df false)).rows.filterMap orderKeyStr?
        = [X ++ "|" ++ D, X ++ "|" ++ D] :=
      filterMap_orderKey _ _ (by rw [hdf2]; rfl)
    have hded : dedupStrs [X ++ "|" ++ D, X ++ "|" ++ D] = [X ++ "|" ++ D] := by
      simp [dedupStrs, List.contains_cons]
    rw [← ho, statusDefault_keys]
    simp only [buildOrders]
    rw [hfm, hded]
    simp [sortStrs, insertStr, aggRowFor_key]

/-- Witness for C6: the two-distinct-product run `salesStatusCx` (customer
`a@x.com`, date `2025-12-30`, no order id) produces one order keyed
`a@x.com|2025-12-30` and two line items with that key. -/
theorem order_key_rule_and_grouping_witness :
    ordersStatusOut.rows.map (fun r => r.cell "order_key")
        = [.str ("a@x.com" ++ "|" ++ "2025-12-30")] ∧
      itemsStatusOut.rows.map (fun r => r.cell "order_key")
        = [.str ("a@x.com" ++ "|" ++ "2025-12-30"),
           .str ("a@x.com" ++ "|" ++ "2025-12-30")] :=
  order_key_rule_and_grouping.2 salesStatusCx emptyTable prodsXY dfStatusPrep
    ⟨2, 0, 0⟩ ordersStatusOut itemsStatusOut ⟨2, 0, 1⟩ "a@x.com" "2025-12-30"
    (dfStatusPrep.rows.get ⟨0, by decide⟩) (dfStatusPrep.rows.get ⟨1, by decide⟩)
    rfl rfl rfl rfl rfl rfl rfl rfl rfl

/-- C2 (amended): the raising conditions of `transform_sales` that this
embedding captures, each sufficient for an error: (i) the renamed sales
table exposes neither the `{customer_email, product_name}` pair nor the
`{customer_id, product_id}` pair — the error is then the schema message
naming the columns that were found; (ii) the pair check passes but one of
the deduplication subset columns (the detected pair plus `order_date`,
`quantity`, `unit_price`) is absent — the pandas `KeyError` raised inside
`drop_duplicates(subset=...)`, refuting the original claim that schema
detection is the only raising condition (`schema_error_missing_aux_cx`);
(iii) the coded-identifier translation leaves zero surviving rows, so the
rebuilt frame has no `unit_price` column and reading it raises.  These
conditions are sufficient but not exhaustive: pandas dtype errors — a
`merge` joining an int64 key column to an object one (`ValueError`,
etl_pipeline.py:443/475), `+`-concatenation of a non-string mapped
customer reference (`TypeError`, etl_pipeline.py:525/532/537), and
`float(None)` on an object-dtype price column — also raise, and column
dtypes are outside this embedding, so no only-if direction is stated. -/
theorem sales_error_conditions :
    (∀ s c p : Table, (hasNamePair s || hasIdPair s) = false →
      transform_sales s c p = .error (schemaErrMsg (renameSales s).cols)) ∧
    (∀ s c p : Table, (hasNamePair s || hasIdPair s) = true →
      ((salesSubset (hasIdPair s)).all
          (fun x => (renameSales s).cols.contains x)) = false →
      transform_sales s c p = .error dedupKeyErr) ∧
    (∀ s c p : Table,
      ((salesSubset (hasIdPair s)).all
          (fun x => (renameSales s).cols.contains x)) = true →
      takesCodedEmptyPath s c p = true →
      transform_sales s c p = .error unitPriceKeyErr) := by
  refine ⟨?_, ?_, ?_⟩
  · intro s c p h
    unfold transform_sales salesPrep
    rw [h]
    rfl
  · intro s c p h1 h2
    have hex : ∃ x ∈ salesSubset (hasIdPair s), x ∉ (renameSales s).cols := by
      simpa using h2
    simp [transform_sales, salesPrep, h1, hex]
  · intro s c p hsub hcep
    simp only [takesCodedEmptyPath, Bool.and_eq_true] at hcep
    obtain ⟨⟨⟨hid, hnb⟩, hm⟩, he⟩ := hcep
    have hnex : ∀ x ∈ salesSubset (hasIdPair s), x ∈ (renameSales s).cols := by
      simpa using hsub
    rw [hid] at hnex
    have hnd : ¬ ∃ x ∈ salesSubset true, x ∉ (renameSales s).cols := by
      rintro ⟨x, hx, hm2⟩
      exact hm2 (hnex x hx)
    simp [transform_sales, salesPrep, hid, hnb, hm, he, hnd, mappedBranch, finalizePrep]

/-- Witness for C2: the all-empty input exposes neither pair, and the
raised error is the schema message naming the (empty) found columns. -/
theorem sales_error_conditions_witness :
    (hasNamePair emptyTable || hasIdPair emptyTable) = false ∧
      transform_sales emptyTable emptyTable emptyTable
        = .error (schemaErrMsg (renameSales emptyTable).cols) :=
  ⟨rfl, sales_error_conditions.1 emptyTable emptyTable emptyTable rfl⟩
